import Mathlib

/-!
# The plugin API gateway of `direct/src/plugin/p3d_plugin.cxx`

A shallow embedding of the C entry points of the Panda3D plugin core API.

* Every entry point is a function from the state of the world before the call
  to an `Outcome` and the state of the world after it.
* The module globals of the file (`initialized_lock`, `_api_lock`, `logfile`,
  `plugin_output_filename`, `nout_stream`) are fields of `World`.
* Everything the file only *calls* (the `P3DInstanceManager` singleton, the
  `P3DInstance` methods, the object constructors, the `P3D_OBJECT_*` dispatch
  macros, the `std::ofstream` operations) is a field of `Externals`, acting on
  an abstract runtime state `R` and an abstract stream state `L`. The theorems
  hold for every choice of these collaborators.
* Each call the gateway makes is appended to `World.trace` together with the
  status of the global lock at that moment, so that "what was invoked, in
  which order, with the lock held or not" is a property of a list.
* `assert` is taken as compiled in (no `NDEBUG`): a failed assertion aborts
  the call, which is the outcome `assert_failed`.
* The one expression that an entry point evaluates itself and that can throw,
  `string(str, length)` in `P3D_new_string_object`, is a step of its own; when
  it throws the outcome is `threw`. The calls into the collaborators are taken
  to return.
* One thread is followed. What the other threads do is seen only through
  `wait_request`, which hands back the runtime state found on waking; that
  `ACQUIRE_LOCK` may have to wait for another thread is not represented.
* The wait loop of `P3D_check_request` need not end, so it is given fuel: one
  unit per execution of its body. A run that is out of fuel has the outcome
  `waiting` and keeps the trace it has built so far.
-/

namespace P3DPlugin

/-! ## Data -/

/-- A C pointer, kept as an address; address zero is the null pointer. -/
abbrev Ptr := Nat

/-- The null pointer. -/
def NULL : Ptr := 0

/-- A `const char *` argument: `none` is the null pointer. -/
abbrev CStr := Option String

/-- A C `double`, carried as its bit pattern: the gateway only passes doubles
through and never computes on them. -/
structure Double where
  bits : Nat
deriving DecidableEq, Repr

/-- The local `P3DWindowParams wparams(window_type, win_x, win_y, win_width,
win_height, parent_window)` built by `P3D_instance_setup_window`. -/
structure P3DWindowParams where
  window_type : Int
  win_x : Int
  win_y : Int
  win_width : Int
  win_height : Int
  parent_window : Ptr
deriving DecidableEq, Repr

/-- The thirteen operations on a `P3D_object` that the gateway exposes; each
of them is carried out by the `P3D_OBJECT_*` macro of the same name. -/
inductive ObjOp
  | get_type | get_bool | get_int | get_float | get_string | get_repr
  | get_property | set_property | has_method | call | eval | incref | decref
deriving DecidableEq, Repr

/-- One step taken by an entry point that is visible outside the function:
a lock operation, an output, or a call into a collaborator (with the handles
it was given and, for the queries, the answer it gave). -/
inductive Ev
  | nout (s : String)
  | cerr (s : String)
  | assert_is_initialized (ok : Bool)
  | init_lock
  | acquire_lock
  | release_lock
  | logfile_open (name : String)
  | logfile_setf_unitbuf
  | mgr_initialize_call (contents_filename download_url platform : String)
  | mgr_delete_global_ptr
  | mgr_create_instance (result : Ptr)
  | mgr_validate_instance (handle result : Ptr)
  | mgr_start_instance (inst : Ptr) (p3d_filename : String)
  | mgr_finish_instance (inst : Ptr)
  | mgr_check_request (result : Ptr)
  | mgr_wait_request
  | mgr_get_num_instances (n : Nat)
  | mgr_make_class_definition
  | mgr_new_undefined_object
  | mgr_new_none_object
  | mgr_new_bool_object (value : Bool)
  | new_P3DIntObject (value : Int)
  | new_P3DFloatObject (value : Double)
  | std_string (str : Ptr) (length : Int)
  | new_P3DStringObject (s : List Nat)
  | inst_set_wparams (inst : Ptr) (wparams : P3DWindowParams)
  | inst_get_panda_script_object (inst : Ptr)
  | inst_set_browser_script_object (inst object : Ptr)
  | inst_get_request (inst : Ptr)
  | inst_finish_request (inst request : Ptr) (handled : Bool)
  | inst_feed_url_stream (inst : Ptr) (unique_id : Int)
  | inst_handle_event (inst : Ptr) (event : Nat)
  | request_read_instance (request : Ptr)
  | object_dispatch (op : ObjOp) (object : Ptr)
deriving DecidableEq, Repr

/-- A trace entry: the step, and whether `_api_lock` was held by the calling
thread when the step began. -/
structure Entry where
  ev : Ev
  locked : Bool
deriving DecidableEq, Repr

/-- How a call ended. `returned a`: the function returned `a`.
`assert_failed`: the `assert(...is_initialized())` at its head failed and the
process was aborted. `fault`: a `P3D_OBJECT_*` dispatch went through a handle
that cannot be dereferenced. `threw`: a C++ exception raised inside the
function left it, nothing in the file catching it. `waiting`: the wait loop of `P3D_check_request`
was still running when the fuel of the model ran out. -/
inductive Outcome (α : Type)
  | returned (a : α)
  | assert_failed
  | fault
  | threw
  | waiting
deriving DecidableEq, Repr

/-- The value of the global `ostream *nout_stream`. -/
inductive OStreamPtr
  | null
  | cerr
  | logfile
deriving DecidableEq, Repr

/-- Modelled from the spec: the `LOCK` type of the absent `p3d_lock.h`, "the
single mutual-exclusion primitive serializing all boundary entry points".
`inits` counts the `INIT_LOCK` calls made on it, `held` says whether the
calling thread holds it. -/
structure Lock where
  inits : Nat
  held : Bool
deriving DecidableEq, Repr

/-- Build-time configuration: the macros tested or expanded by
`P3D_initialize`. `P3D_PLUGIN_LOGFILE2 = none` stands for the macro not being
defined, `win32` for `_WIN32` being defined. -/
structure Config where
  P3D_API_VERSION : Int
  P3D_PLUGIN_LOGFILE2 : Option String
  win32 : Bool
deriving DecidableEq, Repr

/-- Modelled from the spec: the collaborators of the gateway that are not
defined in `p3d_plugin.cxx`. `R` is the state of the runtime behind the
gateway (the `P3DInstanceManager` singleton, its instances, their request
queues, the script objects and the host memory they point to); `L` is the
state of a `std::ofstream`.

The three registry queries are read-only, as the spec words them
(`validate_instance`: "lookup against the live set"; `check_request`:
"non-blocking scan"; `get_num_instances() -> usize`); every other operation
returns the new runtime state. `wait_request` returns the runtime state found
on waking, which includes whatever the other threads did meanwhile. A
`P3D_OBJECT_*` macro dereferences the handle it is given to reach the
function-pointer table of the object, so it answers `none` when that cannot
be done. -/
structure Externals (R L : Type) where
  /-- The result of `GetTempPath`: `none` when the call returns 0. -/
  GetTempPath : Option String
  logfile_open : L → String → L
  logfile_good : L → Bool
  logfile_setf_unitbuf : L → L
  is_initialized : R → Bool
  mgr_initialize_call : R → String → String → String → R × Bool
  delete_global_ptr : R → R
  create_instance : R → Ptr → Ptr → Nat → Ptr → R × Ptr
  validate_instance : R → Ptr → Ptr
  start_instance : R → Ptr → String → R × Bool
  finish_instance : R → Ptr → R
  check_request : R → Ptr
  wait_request : R → R
  get_num_instances : R → Nat
  make_class_definition : R → R × Ptr
  new_undefined_object : R → R × Ptr
  new_none_object : R → R × Ptr
  new_bool_object : R → Bool → R × Ptr
  new_P3DIntObject : R → Int → R × Ptr
  new_P3DFloatObject : R → Double → R × Ptr
  /-- The bytes that `std::string(str, n)` copies from the buffer at `str`, for
  a non-null `str` (or `n = 0`) and a length `n` that is not negative; `none`
  when the constructor throws all the same (a length beyond `max_size()`, no
  memory). -/
  string_contents : R → Ptr → Nat → Option (List Nat)
  new_P3DStringObject : R → List Nat → R × Ptr
  set_wparams : R → Ptr → P3DWindowParams → R
  get_panda_script_object : R → Ptr → R × Ptr
  set_browser_script_object : R → Ptr → Ptr → R
  get_request : R → Ptr → R × Ptr
  finish_request : R → Ptr → Ptr → Bool → R
  feed_url_stream : R → Ptr → Int → Nat → Int → Nat → Ptr → Nat → R × Bool
  handle_event : R → Ptr → Nat → R × Bool
  /-- The field `request->_instance` of a `P3D_request`. -/
  request_instance : R → Ptr → Ptr
  P3D_OBJECT_GET_TYPE : R → Ptr → Option (R × Int)
  P3D_OBJECT_GET_BOOL : R → Ptr → Option (R × Bool)
  P3D_OBJECT_GET_INT : R → Ptr → Option (R × Int)
  P3D_OBJECT_GET_FLOAT : R → Ptr → Option (R × Double)
  P3D_OBJECT_GET_STRING : R → Ptr → Ptr → Int → Option (R × Int)
  P3D_OBJECT_GET_REPR : R → Ptr → Ptr → Int → Option (R × Int)
  P3D_OBJECT_GET_PROPERTY : R → Ptr → CStr → Option (R × Ptr)
  P3D_OBJECT_SET_PROPERTY : R → Ptr → CStr → Ptr → Option (R × Bool)
  P3D_OBJECT_HAS_METHOD : R → Ptr → CStr → Option (R × Bool)
  P3D_OBJECT_CALL : R → Ptr → CStr → Bool → Ptr → Int → Option (R × Ptr)
  P3D_OBJECT_EVAL : R → Ptr → CStr → Option (R × Ptr)
  P3D_OBJECT_INCREF : R → Ptr → Option R
  P3D_OBJECT_DECREF : R → Ptr → Option R

/-- The state of the world as one thread calling into the gateway sees it:
the five globals of `p3d_plugin.cxx`, the runtime state behind the gateway,
and the trace of the steps taken so far. -/
structure World (R L : Type) where
  initialized_lock : Bool
  _api_lock : Lock
  logfile : L
  plugin_output_filename : String
  nout_stream : OStreamPtr
  rt : R
  trace : List Entry

variable {R L : Type}

/-- Append a step to the trace, stamped with the current status of the lock. -/
def World.log (w : World R L) (e : Ev) : World R L :=
  { w with trace := w.trace ++ [⟨e, w._api_lock.held⟩] }

/-- `INIT_LOCK(_api_lock)`. -/
def INIT_LOCK (w : World R L) : World R L :=
  { w.log .init_lock with _api_lock := ⟨w._api_lock.inits + 1, false⟩ }

/-- `ACQUIRE_LOCK(_api_lock)`. -/
def ACQUIRE_LOCK (w : World R L) : World R L :=
  { w.log .acquire_lock with _api_lock := ⟨w._api_lock.inits, true⟩ }

/-- `RELEASE_LOCK(_api_lock)`. -/
def RELEASE_LOCK (w : World R L) : World R L :=
  { w.log .release_lock with _api_lock := ⟨w._api_lock.inits, false⟩ }

/-- The evaluation of `P3DInstanceManager::get_global_ptr()->is_initialized()`
inside the `assert` at the head of an entry point. -/
def assert_is_initialized (ext : Externals R L) (w : World R L) : World R L :=
  w.log (.assert_is_initialized (ext.is_initialized w.rt))

/-! ## Entry points -/

/-- The name of the log file chosen by `P3D_initialize`. -/
def logfilename (cfg : Config) (ext : Externals R L) : String :=
  let logfilename := cfg.P3D_PLUGIN_LOGFILE2.getD ""
  if logfilename.isEmpty then
    if cfg.win32 then
      match ext.GetTempPath with
      | some buffer => buffer ++ "panda3d.2.log"
      | none => logfilename
    else
      "/tmp/panda3d.2.log"
  else
    logfilename

/-- `bool P3D_initialize(int api_version, const char *contents_filename,
const char *download_url, const char *platform)`. -/
def P3D_initialize (cfg : Config) (ext : Externals R L) (api_version : Int)
    (contents_filename download_url platform : CStr) (w : World R L) :
    Outcome Bool × World R L :=
  if api_version ≠ cfg.P3D_API_VERSION then
    (.returned false, w)
  else
    let w := if w.initialized_lock = false then
        { INIT_LOCK w with initialized_lock := true }
      else w
    let w := ACQUIRE_LOCK w
    let contents_filename := contents_filename.getD ""
    let download_url := download_url.getD ""
    let platform := platform.getD ""
    let name := logfilename cfg ext
    let w := w.log (.cerr ("logfile: " ++ name ++ "\n"))
    let w := { w with nout_stream := .cerr }
    let w := { w.log (.logfile_open name) with logfile := ext.logfile_open w.logfile name }
    let w := if ext.logfile_good w.logfile then
        { w.log .logfile_setf_unitbuf with
          logfile := ext.logfile_setf_unitbuf w.logfile, nout_stream := .logfile }
      else w
    let r := ext.mgr_initialize_call w.rt contents_filename download_url platform
    let w := { w.log (.mgr_initialize_call contents_filename download_url platform) with rt := r.1 }
    let w := RELEASE_LOCK w
    (.returned r.2, w)

/-- `void P3D_finalize()`. -/
def P3D_finalize (ext : Externals R L) (w : World R L) : Outcome Unit × World R L :=
  let w := { w.log .mgr_delete_global_ptr with rt := ext.delete_global_ptr w.rt }
  (.returned (), w)

/-- `P3D_instance *P3D_new_instance(P3D_request_ready_func *func,
const P3D_token tokens[], size_t num_tokens, void *user_data)`. -/
def P3D_new_instance (ext : Externals R L) (func tokens : Ptr) (num_tokens : Nat)
    (user_data : Ptr) (w : World R L) : Outcome Ptr × World R L :=
  let w := w.log (.nout "new_instance\n")
  let w := assert_is_initialized ext w
  if ext.is_initialized w.rt = false then (.assert_failed, w) else
  let w := ACQUIRE_LOCK w
  let r := ext.create_instance w.rt func tokens num_tokens user_data
  let w := { w.log (.mgr_create_instance r.2) with rt := r.1 }
  let w := RELEASE_LOCK w
  (.returned r.2, w)

/-- `bool P3D_instance_start(P3D_instance *instance, const char *p3d_filename)`. -/
def P3D_instance_start (ext : Externals R L) (instance_ : Ptr) (p3d_filename : CStr)
    (w : World R L) : Outcome Bool × World R L :=
  let w := w.log (.nout "instance_start\n")
  let w := assert_is_initialized ext w
  if ext.is_initialized w.rt = false then (.assert_failed, w) else
  let p3d_filename := p3d_filename.getD ""
  let w := ACQUIRE_LOCK w
  let inst := ext.validate_instance w.rt instance_
  let w := w.log (.mgr_validate_instance instance_ inst)
  let p : Bool × World R L :=
    if inst ≠ NULL then
      let r := ext.start_instance w.rt inst p3d_filename
      (r.2, { w.log (.mgr_start_instance inst p3d_filename) with rt := r.1 })
    else (false, w)
  let w := RELEASE_LOCK p.2
  (.returned p.1, w)

/-- `void P3D_instance_finish(P3D_instance *instance)`. -/
def P3D_instance_finish (ext : Externals R L) (instance_ : Ptr) (w : World R L) :
    Outcome Unit × World R L :=
  let w := assert_is_initialized ext w
  if ext.is_initialized w.rt = false then (.assert_failed, w) else
  let w := ACQUIRE_LOCK w
  let inst := ext.validate_instance w.rt instance_
  let w := w.log (.mgr_validate_instance instance_ inst)
  let w := if inst ≠ NULL then
      { w.log (.mgr_finish_instance inst) with rt := ext.finish_instance w.rt inst }
    else w
  let w := RELEASE_LOCK w
  (.returned (), w)

/-- `void P3D_instance_setup_window(P3D_instance *instance,
P3D_window_type window_type, int win_x, int win_y, int win_width,
int win_height, P3D_window_handle parent_window)`. -/
def P3D_instance_setup_window (ext : Externals R L) (instance_ : Ptr) (window_type : Int)
    (win_x win_y win_width win_height : Int) (parent_window : Ptr) (w : World R L) :
    Outcome Unit × World R L :=
  let w := w.log (.nout "setup_window\n")
  let w := assert_is_initialized ext w
  if ext.is_initialized w.rt = false then (.assert_failed, w) else
  let wparams : P3DWindowParams :=
    ⟨window_type, win_x, win_y, win_width, win_height, parent_window⟩
  let w := ACQUIRE_LOCK w
  let inst := ext.validate_instance w.rt instance_
  let w := w.log (.mgr_validate_instance instance_ inst)
  let w := if inst ≠ NULL then
      { w.log (.inst_set_wparams inst wparams) with rt := ext.set_wparams w.rt inst wparams }
    else w
  let w := RELEASE_LOCK w
  (.returned (), w)

/-- The body shared by the eleven value operations from `P3D_object_get_type`
to `P3D_object_eval`: the assertion, `ACQUIRE_LOCK`, `result = MACRO(object,
...)`, `RELEASE_LOCK`, `return result`. The handle goes to the macro as it
came in. -/
def object_operation {α : Type} (ext : Externals R L) (op : ObjOp) (object : Ptr)
    (expansion : R → Option (R × α)) (w : World R L) : Outcome α × World R L :=
  let w := assert_is_initialized ext w
  if ext.is_initialized w.rt = false then (.assert_failed, w) else
  let w := ACQUIRE_LOCK w
  let w := w.log (.object_dispatch op object)
  match expansion w.rt with
  | none => (.fault, w)
  | some r =>
    let w := RELEASE_LOCK { w with rt := r.1 }
    (.returned r.2, w)

/-- `P3D_object_type P3D_object_get_type(P3D_object *object)`. -/
def P3D_object_get_type (ext : Externals R L) (object : Ptr) (w : World R L) :
    Outcome Int × World R L :=
  object_operation ext .get_type object (fun rt => ext.P3D_OBJECT_GET_TYPE rt object) w

/-- `bool P3D_object_get_bool(P3D_object *object)`. -/
def P3D_object_get_bool (ext : Externals R L) (object : Ptr) (w : World R L) :
    Outcome Bool × World R L :=
  object_operation ext .get_bool object (fun rt => ext.P3D_OBJECT_GET_BOOL rt object) w

/-- `int P3D_object_get_int(P3D_object *object)`. -/
def P3D_object_get_int (ext : Externals R L) (object : Ptr) (w : World R L) :
    Outcome Int × World R L :=
  object_operation ext .get_int object (fun rt => ext.P3D_OBJECT_GET_INT rt object) w

/-- `double P3D_object_get_float(P3D_object *object)`. -/
def P3D_object_get_float (ext : Externals R L) (object : Ptr) (w : World R L) :
    Outcome Double × World R L :=
  object_operation ext .get_float object (fun rt => ext.P3D_OBJECT_GET_FLOAT rt object) w

/-- `int P3D_object_get_string(P3D_object *object, char *buffer, int buffer_size)`. -/
def P3D_object_get_string (ext : Externals R L) (object buffer : Ptr) (buffer_size : Int)
    (w : World R L) : Outcome Int × World R L :=
  object_operation ext .get_string object
    (fun rt => ext.P3D_OBJECT_GET_STRING rt object buffer buffer_size) w

/-- `int P3D_object_get_repr(P3D_object *object, char *buffer, int buffer_size)`. -/
def P3D_object_get_repr (ext : Externals R L) (object buffer : Ptr) (buffer_size : Int)
    (w : World R L) : Outcome Int × World R L :=
  object_operation ext .get_repr object
    (fun rt => ext.P3D_OBJECT_GET_REPR rt object buffer buffer_size) w

/-- `P3D_object *P3D_object_get_property(P3D_object *object, const char *property)`. -/
def P3D_object_get_property (ext : Externals R L) (object : Ptr) (property : CStr)
    (w : World R L) : Outcome Ptr × World R L :=
  object_operation ext .get_property object
    (fun rt => ext.P3D_OBJECT_GET_PROPERTY rt object property) w

/-- `bool P3D_object_set_property(P3D_object *object, const char *property,
P3D_object *value)`. -/
def P3D_object_set_property (ext : Externals R L) (object : Ptr) (property : CStr)
    (value : Ptr) (w : World R L) : Outcome Bool × World R L :=
  object_operation ext .set_property object
    (fun rt => ext.P3D_OBJECT_SET_PROPERTY rt object property value) w

/-- `bool P3D_object_has_method(P3D_object *object, const char *method_name)`. -/
def P3D_object_has_method (ext : Externals R L) (object : Ptr) (method_name : CStr)
    (w : World R L) : Outcome Bool × World R L :=
  object_operation ext .has_method object
    (fun rt => ext.P3D_OBJECT_HAS_METHOD rt object method_name) w

/-- `P3D_object *P3D_object_call(P3D_object *object, const char *method_name,
bool needs_response, P3D_object *params[], int num_params)`. -/
def P3D_object_call (ext : Externals R L) (object : Ptr) (method_name : CStr)
    (needs_response : Bool) (params : Ptr) (num_params : Int) (w : World R L) :
    Outcome Ptr × World R L :=
  object_operation ext .call object
    (fun rt => ext.P3D_OBJECT_CALL rt object method_name needs_response params num_params) w

/-- `P3D_object *P3D_object_eval(P3D_object *object, const char *expression)`. -/
def P3D_object_eval (ext : Externals R L) (object : Ptr) (expression : CStr)
    (w : World R L) : Outcome Ptr × World R L :=
  object_operation ext .eval object (fun rt => ext.P3D_OBJECT_EVAL rt object expression) w

/-- `void P3D_object_incref(P3D_object *object)`. -/
def P3D_object_incref (ext : Externals R L) (object : Ptr) (w : World R L) :
    Outcome Unit × World R L :=
  let w := assert_is_initialized ext w
  if ext.is_initialized w.rt = false then (.assert_failed, w) else
  if object ≠ NULL then
    let w := ACQUIRE_LOCK w
    let w := w.log (.object_dispatch .incref object)
    match ext.P3D_OBJECT_INCREF w.rt object with
    | none => (.fault, w)
    | some rt =>
      let w := RELEASE_LOCK { w with rt := rt }
      (.returned (), w)
  else (.returned (), w)

/-- `void P3D_object_decref(P3D_object *object)`. -/
def P3D_object_decref (ext : Externals R L) (object : Ptr) (w : World R L) :
    Outcome Unit × World R L :=
  let w := assert_is_initialized ext w
  if ext.is_initialized w.rt = false then (.assert_failed, w) else
  if object ≠ NULL then
    let w := ACQUIRE_LOCK w
    let w := w.log (.object_dispatch .decref object)
    match ext.P3D_OBJECT_DECREF w.rt object with
    | none => (.fault, w)
    | some rt =>
      let w := RELEASE_LOCK { w with rt := rt }
      (.returned (), w)
  else (.returned (), w)

/-- The body shared by `P3D_make_class_definition` and the `P3D_new_*_object`
constructors other than `P3D_new_string_object`: the assertion, `ACQUIRE_LOCK`, one call that
yields a pointer, `RELEASE_LOCK`, `return result`. -/
def locked_construction (ext : Externals R L) (e : Ev) (make : R → R × Ptr)
    (w : World R L) : Outcome Ptr × World R L :=
  let w := assert_is_initialized ext w
  if ext.is_initialized w.rt = false then (.assert_failed, w) else
  let w := ACQUIRE_LOCK w
  let r := make w.rt
  let w := { w.log e with rt := r.1 }
  let w := RELEASE_LOCK w
  (.returned r.2, w)

/-- `P3D_class_definition *P3D_make_class_definition()`. -/
def P3D_make_class_definition (ext : Externals R L) (w : World R L) :
    Outcome Ptr × World R L :=
  locked_construction ext .mgr_make_class_definition ext.make_class_definition w

/-- `P3D_object *P3D_new_undefined_object()`. -/
def P3D_new_undefined_object (ext : Externals R L) (w : World R L) :
    Outcome Ptr × World R L :=
  locked_construction ext .mgr_new_undefined_object ext.new_undefined_object w

/-- `P3D_object *P3D_new_none_object()`. -/
def P3D_new_none_object (ext : Externals R L) (w : World R L) : Outcome Ptr × World R L :=
  locked_construction ext .mgr_new_none_object ext.new_none_object w

/-- `P3D_object *P3D_new_bool_object(bool value)`. -/
def P3D_new_bool_object (ext : Externals R L) (value : Bool) (w : World R L) :
    Outcome Ptr × World R L :=
  locked_construction ext (.mgr_new_bool_object value)
    (fun rt => ext.new_bool_object rt value) w

/-- `P3D_object *P3D_new_int_object(int value)`. -/
def P3D_new_int_object (ext : Externals R L) (value : Int) (w : World R L) :
    Outcome Ptr × World R L :=
  locked_construction ext (.new_P3DIntObject value)
    (fun rt => ext.new_P3DIntObject rt value) w

/-- `P3D_object *P3D_new_float_object(double value)`. -/
def P3D_new_float_object (ext : Externals R L) (value : Double) (w : World R L) :
    Outcome Ptr × World R L :=
  locked_construction ext (.new_P3DFloatObject value)
    (fun rt => ext.new_P3DFloatObject rt value) w

/-- The temporary `string(str, length)` that `P3D_new_string_object` builds:
the constructor `std::string(const char *s, size_t n)` of the C++ library.
The `int` length is converted to `size_t`, so a negative length arrives as a
length beyond `max_size()` and the constructor throws `std::length_error`; a
null `str` with a length other than zero is refused with an exception as
well. `none` stands for the constructor throwing. -/
def std_string (ext : Externals R L) (rt : R) (str : Ptr) (length : Int) :
    Option (List Nat) :=
  if length < 0 then none
  else if str = NULL ∧ length ≠ 0 then none
  else ext.string_contents rt str length.toNat

/-- `P3D_object *P3D_new_string_object(const char *str, int length)`. The
argument `string(str, length)` of the constructor is evaluated by the function
itself, after `ACQUIRE_LOCK` and before `RELEASE_LOCK`, and nothing catches
what it throws. -/
def P3D_new_string_object (ext : Externals R L) (str : Ptr) (length : Int)
    (w : World R L) : Outcome Ptr × World R L :=
  let w := assert_is_initialized ext w
  if ext.is_initialized w.rt = false then (.assert_failed, w) else
  let w := ACQUIRE_LOCK w
  let w := w.log (.std_string str length)
  match std_string ext w.rt str length with
  | none => (.threw, w)
  | some s =>
    let r := ext.new_P3DStringObject w.rt s
    let w := { w.log (.new_P3DStringObject s) with rt := r.1 }
    let w := RELEASE_LOCK w
    (.returned r.2, w)

/-- `P3D_object *P3D_instance_get_panda_script_object(P3D_instance *instance)`. -/
def P3D_instance_get_panda_script_object (ext : Externals R L) (instance_ : Ptr)
    (w : World R L) : Outcome Ptr × World R L :=
  let w := assert_is_initialized ext w
  if ext.is_initialized w.rt = false then (.assert_failed, w) else
  let w := ACQUIRE_LOCK w
  let inst := ext.validate_instance w.rt instance_
  let w := w.log (.mgr_validate_instance instance_ inst)
  let p : Ptr × World R L :=
    if inst ≠ NULL then
      let r := ext.get_panda_script_object w.rt inst
      (r.2, { w.log (.inst_get_panda_script_object inst) with rt := r.1 })
    else (NULL, w)
  let w := RELEASE_LOCK p.2
  (.returned p.1, w)

/-- `void P3D_instance_set_browser_script_object(P3D_instance *instance,
P3D_object *object)`. -/
def P3D_instance_set_browser_script_object (ext : Externals R L) (instance_ object : Ptr)
    (w : World R L) : Outcome Unit × World R L :=
  let w := assert_is_initialized ext w
  if ext.is_initialized w.rt = false then (.assert_failed, w) else
  let w := ACQUIRE_LOCK w
  let inst := ext.validate_instance w.rt instance_
  let w := w.log (.mgr_validate_instance instance_ inst)
  let w := if inst ≠ NULL then
      { w.log (.inst_set_browser_script_object inst object) with
        rt := ext.set_browser_script_object w.rt inst object }
    else w
  let w := RELEASE_LOCK w
  (.returned (), w)

/-- `P3D_request *P3D_instance_get_request(P3D_instance *instance)`. -/
def P3D_instance_get_request (ext : Externals R L) (instance_ : Ptr) (w : World R L) :
    Outcome Ptr × World R L :=
  let w := assert_is_initialized ext w
  if ext.is_initialized w.rt = false then (.assert_failed, w) else
  let w := ACQUIRE_LOCK w
  let inst := ext.validate_instance w.rt instance_
  let w := w.log (.mgr_validate_instance instance_ inst)
  let p : Ptr × World R L :=
    if inst ≠ NULL then
      let r := ext.get_request w.rt inst
      (r.2, { w.log (.inst_get_request inst) with rt := r.1 })
    else (NULL, w)
  let w := RELEASE_LOCK p.2
  (.returned p.1, w)

/-- The test of `while (inst == NULL && inst_mgr->get_num_instances() != 0)`:
`get_num_instances` is called only when `inst` is null. -/
def check_request_condition (ext : Externals R L) (w : World R L) (inst : Ptr) :
    Bool × World R L :=
  if inst = NULL then
    let n := ext.get_num_instances w.rt
    (n != 0, w.log (.mgr_get_num_instances n))
  else (false, w)

/-- The body of the wait loop: `RELEASE_LOCK`, `wait_request()`,
`ACQUIRE_LOCK`, `inst = check_request()`. -/
def check_request_body (ext : Externals R L) (w : World R L) : Ptr × World R L :=
  let w := RELEASE_LOCK w
  let w := { w.log .mgr_wait_request with rt := ext.wait_request w.rt }
  let w := ACQUIRE_LOCK w
  let inst := ext.check_request w.rt
  (inst, w.log (.mgr_check_request inst))

/-- The wait loop of `P3D_check_request` with what follows it
(`RELEASE_LOCK; return inst`). One unit of fuel is spent per execution of the
body; the test itself needs none. -/
def check_request_loop (ext : Externals R L) : Nat → World R L → Ptr → Outcome Ptr × World R L
  | 0, w, inst =>
    let c := check_request_condition ext w inst
    if c.1 then (.waiting, c.2) else (.returned inst, RELEASE_LOCK c.2)
  | fuel + 1, w, inst =>
    let c := check_request_condition ext w inst
    if c.1 then
      let b := check_request_body ext c.2
      check_request_loop ext fuel b.2 b.1
    else (.returned inst, RELEASE_LOCK c.2)

/-- `P3D_instance *P3D_check_request(bool wait)`. -/
def P3D_check_request (ext : Externals R L) (fuel : Nat) (wait : Bool) (w : World R L) :
    Outcome Ptr × World R L :=
  let w := assert_is_initialized ext w
  if ext.is_initialized w.rt = false then (.assert_failed, w) else
  let w := ACQUIRE_LOCK w
  let inst := ext.check_request w.rt
  let w := w.log (.mgr_check_request inst)
  if inst ≠ NULL ∨ wait = false then
    (.returned inst, RELEASE_LOCK w)
  else
    check_request_loop ext fuel w inst

/-- `void P3D_request_finish(P3D_request *request, bool handled)`. -/
def P3D_request_finish (ext : Externals R L) (request : Ptr) (handled : Bool)
    (w : World R L) : Outcome Unit × World R L :=
  let w := assert_is_initialized ext w
  if ext.is_initialized w.rt = false then (.assert_failed, w) else
  let w := ACQUIRE_LOCK w
  let w := if request ≠ NULL then
      let owner := ext.request_instance w.rt request
      let w := w.log (.request_read_instance request)
      let inst := ext.validate_instance w.rt owner
      let w := w.log (.mgr_validate_instance owner inst)
      if inst ≠ NULL then
        { w.log (.inst_finish_request inst request handled) with
          rt := ext.finish_request w.rt inst request handled }
      else w
    else w
  let w := RELEASE_LOCK w
  (.returned (), w)

/-- `bool P3D_instance_feed_url_stream(P3D_instance *instance, int unique_id,
P3D_result_code result_code, int http_status_code, size_t total_expected_data,
const void *this_data, size_t this_data_size)`. -/
def P3D_instance_feed_url_stream (ext : Externals R L) (instance_ : Ptr) (unique_id : Int)
    (result_code : Nat) (http_status_code : Int) (total_expected_data : Nat)
    (this_data : Ptr) (this_data_size : Nat) (w : World R L) : Outcome Bool × World R L :=
  let w := assert_is_initialized ext w
  if ext.is_initialized w.rt = false then (.assert_failed, w) else
  let w := ACQUIRE_LOCK w
  let inst := ext.validate_instance w.rt instance_
  let w := w.log (.mgr_validate_instance instance_ inst)
  let p : Bool × World R L :=
    if inst ≠ NULL then
      let r := ext.feed_url_stream w.rt inst unique_id result_code http_status_code
        total_expected_data this_data this_data_size
      (r.2, { w.log (.inst_feed_url_stream inst unique_id) with rt := r.1 })
    else (false, w)
  let w := RELEASE_LOCK p.2
  (.returned p.1, w)

/-- `bool P3D_instance_handle_event(P3D_instance *instance, P3D_event_data event)`. -/
def P3D_instance_handle_event (ext : Externals R L) (instance_ : Ptr) (event : Nat)
    (w : World R L) : Outcome Bool × World R L :=
  let w := assert_is_initialized ext w
  if ext.is_initialized w.rt = false then (.assert_failed, w) else
  let w := ACQUIRE_LOCK w
  let inst := ext.validate_instance w.rt instance_
  let w := w.log (.mgr_validate_instance instance_ inst)
  let p : Bool × World R L :=
    if inst ≠ NULL then
      let r := ext.handle_event w.rt inst event
      (r.2, { w.log (.inst_handle_event inst event) with rt := r.1 })
    else (false, w)
  let w := RELEASE_LOCK p.2
  (.returned p.1, w)

/-! ## The API as a whole -/

/-- A value returned across the C boundary. -/
inductive RetVal
  | void
  | bool (b : Bool)
  | int (i : Int)
  | double (d : Double)
  | ptr (p : Ptr)
deriving DecidableEq, Repr

/-- Repackage the result of an entry point as a `RetVal`. -/
def ret {α : Type} (f : α → RetVal) (p : Outcome α × World R L) :
    Outcome RetVal × World R L :=
  match p.1 with
  | .returned a => (.returned (f a), p.2)
  | .assert_failed => (.assert_failed, p.2)
  | .fault => (.fault, p.2)
  | .threw => (.threw, p.2)
  | .waiting => (.waiting, p.2)

/-- A call of one of the thirty-three entry points of `p3d_plugin.cxx`, with
its arguments. -/
inductive Call
  | init (api_version : Int) (contents_filename download_url platform : CStr)
  | finalize
  | new_instance (func tokens : Ptr) (num_tokens : Nat) (user_data : Ptr)
  | instance_start (instance_ : Ptr) (p3d_filename : CStr)
  | instance_finish (instance_ : Ptr)
  | instance_setup_window (instance_ : Ptr) (window_type win_x win_y win_width win_height : Int)
      (parent_window : Ptr)
  | object_get_type (object : Ptr)
  | object_get_bool (object : Ptr)
  | object_get_int (object : Ptr)
  | object_get_float (object : Ptr)
  | object_get_string (object buffer : Ptr) (buffer_size : Int)
  | object_get_repr (object buffer : Ptr) (buffer_size : Int)
  | object_get_property (object : Ptr) (property : CStr)
  | object_set_property (object : Ptr) (property : CStr) (value : Ptr)
  | object_has_method (object : Ptr) (method_name : CStr)
  | object_call (object : Ptr) (method_name : CStr) (needs_response : Bool) (params : Ptr)
      (num_params : Int)
  | object_eval (object : Ptr) (expression : CStr)
  | object_incref (object : Ptr)
  | object_decref (object : Ptr)
  | make_class_definition
  | new_undefined_object
  | new_none_object
  | new_bool_object (value : Bool)
  | new_int_object (value : Int)
  | new_float_object (value : Double)
  | new_string_object (str : Ptr) (length : Int)
  | instance_get_panda_script_object (instance_ : Ptr)
  | instance_set_browser_script_object (instance_ object : Ptr)
  | instance_get_request (instance_ : Ptr)
  | check_request (wait : Bool)
  | request_finish (request : Ptr) (handled : Bool)
  | instance_feed_url_stream (instance_ : Ptr) (unique_id : Int) (result_code : Nat)
      (http_status_code : Int) (total_expected_data : Nat) (this_data : Ptr)
      (this_data_size : Nat)
  | instance_handle_event (instance_ : Ptr) (event : Nat)
deriving DecidableEq, Repr

/-- Run one call of the API. `fuel` bounds the number of times the wait loop
of `P3D_check_request` may go round. -/
def exec (cfg : Config) (ext : Externals R L) (fuel : Nat) :
    Call → World R L → Outcome RetVal × World R L
  | .init v c d p, w => ret .bool ( P3D_initialize cfg ext v c d p w)
  | .finalize, w => ret (fun _ => .void) (P3D_finalize ext w)
  | .new_instance f t n u, w => ret .ptr (P3D_new_instance ext f t n u w)
  | .instance_start i f, w => ret .bool (P3D_instance_start ext i f w)
  | .instance_finish i, w => ret (fun _ => .void) (P3D_instance_finish ext i w)
  | .instance_setup_window i t x y wd ht pw, w =>
    ret (fun _ => .void) (P3D_instance_setup_window ext i t x y wd ht pw w)
  | .object_get_type o, w => ret .int (P3D_object_get_type ext o w)
  | .object_get_bool o, w => ret .bool (P3D_object_get_bool ext o w)
  | .object_get_int o, w => ret .int (P3D_object_get_int ext o w)
  | .object_get_float o, w => ret .double (P3D_object_get_float ext o w)
  | .object_get_string o b n, w => ret .int (P3D_object_get_string ext o b n w)
  | .object_get_repr o b n, w => ret .int (P3D_object_get_repr ext o b n w)
  | .object_get_property o p, w => ret .ptr (P3D_object_get_property ext o p w)
  | .object_set_property o p v, w => ret .bool (P3D_object_set_property ext o p v w)
  | .object_has_method o m, w => ret .bool (P3D_object_has_method ext o m w)
  | .object_call o m r ps n, w => ret .ptr (P3D_object_call ext o m r ps n w)
  | .object_eval o e, w => ret .ptr (P3D_object_eval ext o e w)
  | .object_incref o, w => ret (fun _ => .void) (P3D_object_incref ext o w)
  | .object_decref o, w => ret (fun _ => .void) (P3D_object_decref ext o w)
  | .make_class_definition, w => ret .ptr (P3D_make_class_definition ext w)
  | .new_undefined_object, w => ret .ptr (P3D_new_undefined_object ext w)
  | .new_none_object, w => ret .ptr (P3D_new_none_object ext w)
  | .new_bool_object v, w => ret .ptr (P3D_new_bool_object ext v w)
  | .new_int_object v, w => ret .ptr (P3D_new_int_object ext v w)
  | .new_float_object v, w => ret .ptr (P3D_new_float_object ext v w)
  | .new_string_object s n, w => ret .ptr (P3D_new_string_object ext s n w)
  | .instance_get_panda_script_object i, w =>
    ret .ptr (P3D_instance_get_panda_script_object ext i w)
  | .instance_set_browser_script_object i o, w =>
    ret (fun _ => .void) (P3D_instance_set_browser_script_object ext i o w)
  | .instance_get_request i, w => ret .ptr (P3D_instance_get_request ext i w)
  | .check_request wait, w => ret .ptr (P3D_check_request ext fuel wait w)
  | .request_finish r h, w => ret (fun _ => .void) (P3D_request_finish ext r h w)
  | .instance_feed_url_stream i u rc hs te td ts, w =>
    ret .bool (P3D_instance_feed_url_stream ext i u rc hs te td ts w)
  | .instance_handle_event i e, w => ret .bool (P3D_instance_handle_event ext i e w)

/-- The steps of a trace, without the lock stamps. -/
def steps (t : List Entry) : List Ev := t.map Entry.ev

/-- The call `res` made from the world `w` returned `a`, left the runtime
state as it was, and took exactly the steps `evs`, in that order. -/
def ReturnsUntouched {α : Type} (w : World R L) (res : Outcome α × World R L) (a : α)
    (evs : List Ev) : Prop :=
  res.1 = .returned a ∧ res.2.rt = w.rt ∧ steps res.2.trace = steps w.trace ++ evs

/-! ## A small concrete runtime, used to run the entry points -/

/-- A toy runtime: whether the manager is initialised, the handles of the live
instances, the live instances that have a request ready (oldest first), what
the other threads will have done by each future wake-up of `wait_request`
(the new live set and the new ready list), and a log of the calls that
changed something. -/
structure ToyRt where
  initialized : Bool
  live : List Ptr
  ready : List Ptr
  wakeups : List (List Ptr × List Ptr)
  calls : List String
deriving DecidableEq, Repr

/-- The collaborators over the toy runtime. Handles are validated against the
live list; an object macro cannot go through the null handle; the stream state
says whether the stream is open and good, and opening a stream that is open
already fails. -/
def toyExt : Externals ToyRt Bool where
  GetTempPath := none
  logfile_open := fun l _ => !l
  logfile_good := fun l => l
  logfile_setf_unitbuf := fun l => l
  is_initialized := fun rt => rt.initialized
  mgr_initialize_call := fun rt _ _ _ =>
    ({ rt with initialized := true, calls := rt.calls ++ ["initialize"] }, true)
  delete_global_ptr := fun rt =>
    { rt with initialized := false, live := [], ready := [], calls := rt.calls ++ ["delete"] }
  create_instance := fun rt _ _ _ _ =>
    ({ rt with live := rt.live ++ [rt.live.length + 100] }, rt.live.length + 100)
  validate_instance := fun rt h => if h ∈ rt.live then h else NULL
  start_instance := fun rt _ _ => ({ rt with calls := rt.calls ++ ["start"] }, true)
  finish_instance := fun rt i =>
    { rt with live := rt.live.erase i, ready := rt.ready.erase i }
  check_request := fun rt => rt.ready.headD NULL
  wait_request := fun rt =>
    match rt.wakeups with
    | [] => rt
    | (l, r) :: rest => { rt with live := l, ready := r, wakeups := rest }
  get_num_instances := fun rt => rt.live.length
  make_class_definition := fun rt => (rt, 1)
  new_undefined_object := fun rt => (rt, 2)
  new_none_object := fun rt => (rt, 3)
  new_bool_object := fun rt _ => (rt, 4)
  new_P3DIntObject := fun rt _ => (rt, 5)
  new_P3DFloatObject := fun rt _ => (rt, 6)
  string_contents := fun _ _ n => some (List.replicate n 97)
  new_P3DStringObject := fun rt _ => (rt, 7)
  set_wparams := fun rt _ _ => { rt with calls := rt.calls ++ ["set_wparams"] }
  get_panda_script_object := fun rt _ => (rt, 8)
  set_browser_script_object := fun rt _ _ => { rt with calls := rt.calls ++ ["set_browser"] }
  get_request := fun rt i => ({ rt with ready := rt.ready.erase i }, i + 1000)
  finish_request := fun rt _ _ _ => { rt with calls := rt.calls ++ ["finish_request"] }
  feed_url_stream := fun rt _ _ _ _ _ _ _ => (rt, true)
  handle_event := fun rt _ _ => (rt, true)
  request_instance := fun _ r => r - 1000
  P3D_OBJECT_GET_TYPE := fun rt o => if o = NULL then none else some (rt, 4)
  P3D_OBJECT_GET_BOOL := fun rt o => if o = NULL then none else some (rt, true)
  P3D_OBJECT_GET_INT := fun rt o => if o = NULL then none else some (rt, 7)
  P3D_OBJECT_GET_FLOAT := fun rt o => if o = NULL then none else some (rt, ⟨0⟩)
  P3D_OBJECT_GET_STRING := fun rt o _ _ => if o = NULL then none else some (rt, 0)
  P3D_OBJECT_GET_REPR := fun rt o _ _ => if o = NULL then none else some (rt, 0)
  P3D_OBJECT_GET_PROPERTY := fun rt o _ => if o = NULL then none else some (rt, NULL)
  P3D_OBJECT_SET_PROPERTY := fun rt o _ _ => if o = NULL then none else some (rt, false)
  P3D_OBJECT_HAS_METHOD := fun rt o _ => if o = NULL then none else some (rt, false)
  P3D_OBJECT_CALL := fun rt o _ _ _ _ => if o = NULL then none else some (rt, NULL)
  P3D_OBJECT_EVAL := fun rt o _ => if o = NULL then none else some (rt, NULL)
  P3D_OBJECT_INCREF := fun rt o => if o = NULL then none else some rt
  P3D_OBJECT_DECREF := fun rt o => if o = NULL then none else some rt

/-- A toy configuration: API version 7, no log file name compiled in, not
Windows. -/
def toyCfg : Config := ⟨7, none, false⟩

/-- The world at program start: no lock, the stream closed, `nout_stream`
null, an uninitialised manager without instances. -/
def toyStart : World ToyRt Bool :=
  ⟨false, ⟨0, false⟩, false, "", .null, ⟨false, [], [], [], []⟩, []⟩

/-- A world after `P3D_initialize`, with the runtime state `rt`. -/
def toyWorld (rt : ToyRt) : World ToyRt Bool :=
  ⟨true, ⟨1, false⟩, true, "", .logfile, rt, []⟩

/-! ## Shapes of traces -/

/-- The traces that `P3D_check_request(true)` can leave from its first scan
on. `found`: a scan found an instance, the lock is released. `nothing_left`: a
scan found nothing and the count was zero, the lock is released. `out_of_fuel`:
a scan found nothing, the count was not zero, and the model stops there.
`again`: a scan found nothing, the count was not zero, the loop body was run
(release, wait, acquire) and the rest follows from the next scan. -/
inductive ScanTrace : List Entry → Outcome Ptr → Prop
  | found (p : Ptr) (h : p ≠ NULL) :
    ScanTrace [⟨.mgr_check_request p, true⟩, ⟨.release_lock, true⟩] (.returned p)
  | nothing_left :
    ScanTrace [⟨.mgr_check_request NULL, true⟩, ⟨.mgr_get_num_instances 0, true⟩,
      ⟨.release_lock, true⟩] (.returned NULL)
  | out_of_fuel (n : Nat) (h : n ≠ 0) :
    ScanTrace [⟨.mgr_check_request NULL, true⟩, ⟨.mgr_get_num_instances n, true⟩] .waiting
  | again (n : Nat) (h : n ≠ 0) (rest : List Entry) (out : Outcome Ptr)
      (more : ScanTrace rest out) :
    ScanTrace (⟨.mgr_check_request NULL, true⟩ :: ⟨.mgr_get_num_instances n, true⟩ ::
      ⟨.release_lock, true⟩ :: ⟨.mgr_wait_request, false⟩ :: ⟨.acquire_lock, false⟩ :: rest) out

/-- The call `res` made from `w` handed `object` to the dispatch macro of
`op` with the lock held, and ended as the macro did: with a fault if the macro
could not go through the handle (`expansion = none`), with the value of the
macro otherwise. -/
def GoesThrough {α : Type} (w : World R L) (res : Outcome α × World R L) (op : ObjOp)
    (object : Ptr) (expansion : Option (R × α)) : Prop :=
  steps (res.2.trace.take (w.trace.length + 3))
    = steps w.trace ++ [.assert_is_initialized true, .acquire_lock, .object_dispatch op object] ∧
  (expansion = none → res.1 = .fault) ∧
  (∀ r, expansion = some r → res.1 = .returned r.2)

/-- A toy world after `P3D_initialize` with one live instance, 100, that has
nothing ready yet: by the first wake-up of `wait_request` nothing will have
changed, by the second the instance will have a request ready. -/
def toyBusy : World ToyRt Bool :=
  toyWorld ⟨true, [100], [], [([100], []), ([100], [100])], []⟩

/-! ## Classifying steps -/

/-- Whether a step reads or changes state of the registry, of an instance, of
a request or of a script value. The lock operations, the outputs to `nout` and
`cerr` and the operations on the log stream do not. -/
def Ev.accessesRuntime : Ev → Bool
  | .nout _ => false
  | .cerr _ => false
  | .init_lock => false
  | .acquire_lock => false
  | .release_lock => false
  | .logfile_open _ => false
  | .logfile_setf_unitbuf => false
  | _ => true

/-- Whether a step is `INIT_LOCK`. -/
def Ev.isLockInit : Ev → Bool
  | .init_lock => true
  | _ => false

/-- Whether a step is the call of the registry's `initialize`. -/
def Ev.isRegistrySetup : Ev → Bool
  | .mgr_initialize_call _ _ _ => true
  | _ => false

/-- Whether a step is `logfile.open(..., ios::out | ios::trunc)`. -/
def Ev.isLogfileOpen : Ev → Bool
  | .logfile_open _ => true
  | _ => false

/-- The claim that a call touches runtime state only with the lock held:
every step among `new` that reads or changes registry, instance, request or
value state was made with the lock held. -/
def LockHeldAtEveryAccess (new : List Entry) : Prop :=
  ∀ e ∈ new, e.ev.accessesRuntime = true → e.locked = true

/-- The arguments of one call of `P3D_initialize`. -/
structure InitArgs where
  api_version : Int
  contents_filename : CStr
  download_url : CStr
  platform : CStr
deriving DecidableEq, Repr

/-- A sequence of calls of `P3D_initialize`, one after the other. -/
def run_initialize_calls (cfg : Config) (ext : Externals R L) :
    List InitArgs → World R L → World R L
  | [], w => w
  | a :: rest, w =>
    run_initialize_calls cfg ext rest
      ( P3D_initialize cfg ext a.api_version a.contents_filename a.download_url a.platform w).2

/-- The steps `new` are made with the lock held wherever they read or change
registry, instance, request or value state, apart from the two kinds of step
that the code makes without the lock on purpose: the `is_initialized()` read
of the assertion at the head of an entry point, and the blocking
`wait_request()`. -/
def LockHeldExceptByDesign (new : List Entry) : Prop :=
  ∀ e ∈ new, e.ev.accessesRuntime = true → e.ev ≠ .mgr_wait_request →
    (∀ b, e.ev ≠ .assert_is_initialized b) → e.locked = true

/-- The steps `new` hold as many `ACQUIRE_LOCK` as `RELEASE_LOCK`. -/
def Balanced (new : List Entry) : Prop :=
  new.countP (fun e => e.ev = .acquire_lock) = new.countP (fun e => e.ev = .release_lock)

/-- What the lock discipline asks of one call `res` made from `w`: its steps
hold the lock where they should, and if it returns, they are balanced and a
lock that was free on entry is free again. -/
def KeepsDiscipline {α : Type} (w : World R L) (res : Outcome α × World R L) : Prop :=
  ∃ new, res.2.trace = w.trace ++ new ∧ LockHeldExceptByDesign new ∧
    ∀ a, res.1 = .returned a →
      Balanced new ∧ (w._api_lock.held = false → res.2._api_lock.held = false)

/-! ## Theorems -/

/-- C2: for every `api_version` different from `P3D_API_VERSION`, and whatever
the other arguments and the world are, `P3D_initialize` returns false and
leaves the world exactly as it was: `initialized_lock`, the lock (neither
initialised nor acquired), the log file, `nout_stream`, the runtime state
(the registry was not initialised) and the trace (nothing was invoked). -/
theorem C2_version_mismatch_no_side_effects (cfg : Config) (ext : Externals R L)
    (api_version : Int) (contents_filename download_url platform : CStr) (w : World R L)
    (h : api_version ≠ cfg.P3D_API_VERSION) :
    P3D_initialize cfg ext api_version contents_filename download_url platform w
      = (.returned false, w) := by
  simp [h, P3D_initialize]

/-- C2, run: the toy API has version 7; a call with version 6 returns false
and leaves the start world as it was. -/
theorem C2_witness :
    P3D_initialize toyCfg toyExt 6 (some "contents.xml") none none toyStart
      = (.returned false, toyStart) :=
  C2_version_mismatch_no_side_effects toyCfg toyExt 6 (some "contents.xml") none none
    toyStart (by decide)

/-- C1: let the manager be initialised (what every one of these entry points
asserts on entry) and let `h` be a handle that `validate_instance` does not
resolve. Then each of the eight entry points taking an instance handle returns
its failure value (false, null or nothing), leaves the runtime state (registry
and instances) as it was, and takes exactly these steps: its log line if it
has one, the assertion, `ACQUIRE_LOCK`, `validate_instance(h)` answering null,
`RELEASE_LOCK`. No other registry or instance operation is invoked. -/
theorem C1_unresolved_handle_sentinel (ext : Externals R L) (w : World R L) (h : Ptr)
    (hinit : ext.is_initialized w.rt = true)
    (hbad : ext.validate_instance w.rt h = NULL) :
    (∀ f, ReturnsUntouched w (P3D_instance_start ext h f w) false
      [.nout "instance_start\n", .assert_is_initialized true, .acquire_lock,
        .mgr_validate_instance h NULL, .release_lock]) ∧
    (∀ id rc hs te td ts,
      ReturnsUntouched w (P3D_instance_feed_url_stream ext h id rc hs te td ts w) false
      [.assert_is_initialized true, .acquire_lock, .mgr_validate_instance h NULL,
        .release_lock]) ∧
    (∀ event, ReturnsUntouched w (P3D_instance_handle_event ext h event w) false
      [.assert_is_initialized true, .acquire_lock, .mgr_validate_instance h NULL,
        .release_lock]) ∧
    ReturnsUntouched w (P3D_instance_get_panda_script_object ext h w) NULL
      [.assert_is_initialized true, .acquire_lock, .mgr_validate_instance h NULL,
        .release_lock] ∧
    ReturnsUntouched w (P3D_instance_get_request ext h w) NULL
      [.assert_is_initialized true, .acquire_lock, .mgr_validate_instance h NULL,
        .release_lock] ∧
    ReturnsUntouched w (P3D_instance_finish ext h w) ()
      [.assert_is_initialized true, .acquire_lock, .mgr_validate_instance h NULL,
        .release_lock] ∧
    (∀ wt x y wd ht pw,
      ReturnsUntouched w (P3D_instance_setup_window ext h wt x y wd ht pw w) ()
      [.nout "setup_window\n", .assert_is_initialized true, .acquire_lock,
        .mgr_validate_instance h NULL, .release_lock]) ∧
    (∀ object, ReturnsUntouched w (P3D_instance_set_browser_script_object ext h object w) ()
      [.assert_is_initialized true, .acquire_lock, .mgr_validate_instance h NULL,
        .release_lock]) := by
  refine ⟨?_, ?_, ?_, ?_, ?_, ?_, ?_, ?_⟩ <;> intros <;>
    simp [ReturnsUntouched, steps, P3D_instance_start, P3D_instance_feed_url_stream,
      P3D_instance_handle_event, P3D_instance_get_panda_script_object,
      P3D_instance_get_request, P3D_instance_finish, P3D_instance_setup_window,
      P3D_instance_set_browser_script_object, assert_is_initialized, ACQUIRE_LOCK,
      RELEASE_LOCK, World.log, hinit, hbad]

/-- C1, run: in a toy world whose only live instance is 100, the finished or
unknown handle 55 is turned away by all eight entry points. -/
theorem C1_witness :
    ReturnsUntouched (toyWorld ⟨true, [100], [100], [], []⟩)
      (P3D_instance_get_request toyExt 55 (toyWorld ⟨true, [100], [100], [], []⟩)) NULL
      [.assert_is_initialized true, .acquire_lock, .mgr_validate_instance 55 NULL,
        .release_lock] :=
  (C1_unresolved_handle_sentinel toyExt (toyWorld ⟨true, [100], [100], [], []⟩) 55
    (by decide) (by decide)).2.2.2.2.1

/-- C3: let the manager be initialised, let `get_num_instances()` be 0 and let
the scan of `check_request()` find nothing. Then `P3D_check_request(true)`
returns null whatever the fuel (so already with none: it never goes round the
loop), leaves the runtime state as it was, and its steps are the assertion,
`ACQUIRE_LOCK`, the scan, the count, `RELEASE_LOCK`: `wait_request` is not
among them. -/
theorem C3_no_instances_returns_null (ext : Externals R L) (w : World R L) (fuel : Nat)
    (hinit : ext.is_initialized w.rt = true)
    (hnum : ext.get_num_instances w.rt = 0)
    (hscan : ext.check_request w.rt = NULL) :
    ReturnsUntouched w (P3D_check_request ext fuel true w) NULL
      [.assert_is_initialized true, .acquire_lock, .mgr_check_request NULL,
        .mgr_get_num_instances 0, .release_lock] := by
  cases fuel <;>
    simp [ReturnsUntouched, steps, P3D_check_request, check_request_loop,
      check_request_condition, assert_is_initialized, ACQUIRE_LOCK, RELEASE_LOCK,
      World.log, hinit, hnum, hscan]

/-- C3, run: an initialised toy manager with no instance at all. -/
theorem C3_witness :
    ReturnsUntouched (toyWorld ⟨true, [], [], [], []⟩)
      (P3D_check_request toyExt 0 true (toyWorld ⟨true, [], [], [], []⟩)) NULL
      [.assert_is_initialized true, .acquire_lock, .mgr_check_request NULL,
        .mgr_get_num_instances 0, .release_lock] :=
  C3_no_instances_returns_null toyExt (toyWorld ⟨true, [], [], [], []⟩) 0
    (by decide) (by decide) (by decide)

/-- C8: with the manager initialised, `P3D_request_finish(request, handled)`
(1) for a null request validates nothing and calls nothing; (2) for a non-null
request reads the owner recorded in the request and validates it first, and if
the registry does not resolve it (the instance has been finished) invokes no
instance operation and leaves the runtime state as it was; (3) if the registry
resolves it to `inst`, invokes `inst->finish_request(request, handled)` with
that same request and flag, once, and nothing else. -/
theorem C8_request_finish_validates_owner (ext : Externals R L) (w : World R L)
    (request : Ptr) (handled : Bool)
    (hinit : ext.is_initialized w.rt = true) :
    (request = NULL →
      ReturnsUntouched w (P3D_request_finish ext request handled w) ()
        [.assert_is_initialized true, .acquire_lock, .release_lock]) ∧
    (request ≠ NULL → ext.validate_instance w.rt (ext.request_instance w.rt request) = NULL →
      ReturnsUntouched w (P3D_request_finish ext request handled w) ()
        [.assert_is_initialized true, .acquire_lock, .request_read_instance request,
          .mgr_validate_instance (ext.request_instance w.rt request) NULL,
          .release_lock]) ∧
    (request ≠ NULL → ext.validate_instance w.rt (ext.request_instance w.rt request) ≠ NULL →
      (P3D_request_finish ext request handled w).1 = .returned () ∧
      (P3D_request_finish ext request handled w).2.rt
        = ext.finish_request w.rt
            (ext.validate_instance w.rt (ext.request_instance w.rt request)) request handled ∧
      steps (P3D_request_finish ext request handled w).2.trace
        = steps w.trace ++
          [.assert_is_initialized true, .acquire_lock, .request_read_instance request,
            .mgr_validate_instance (ext.request_instance w.rt request)
              (ext.validate_instance w.rt (ext.request_instance w.rt request)),
            .inst_finish_request
              (ext.validate_instance w.rt (ext.request_instance w.rt request)) request handled,
            .release_lock]) := by
  refine ⟨?_, ?_, ?_⟩ <;> intros <;>
    simp_all [ReturnsUntouched, steps, P3D_request_finish, assert_is_initialized, ACQUIRE_LOCK,
      RELEASE_LOCK, World.log]

/-- C8, run: request 1100 belongs to instance 100, which is no longer live
(only 101 is): nothing is delegated. -/
theorem C8_witness :
    ReturnsUntouched (toyWorld ⟨true, [101], [], [], []⟩)
      (P3D_request_finish toyExt 1100 true (toyWorld ⟨true, [101], [], [], []⟩)) ()
      [.assert_is_initialized true, .acquire_lock, .request_read_instance 1100,
        .mgr_validate_instance 100 NULL, .release_lock] :=
  (C8_request_finish_validates_owner toyExt (toyWorld ⟨true, [101], [], [], []⟩) 1100 true
    (by decide)).2.1 (by decide) (by decide)

/-! ### The eleven unguarded value operations -/

/-- The shared body hands the handle to the macro, whatever the handle is. -/
theorem object_operation_goes_through {α : Type} (ext : Externals R L) (op : ObjOp)
    (object : Ptr) (expansion : R → Option (R × α)) (w : World R L)
    (hinit : ext.is_initialized w.rt = true) :
    GoesThrough w (object_operation ext op object expansion w) op object (expansion w.rt) := by
  cases h : expansion w.rt <;>
    simp [GoesThrough, steps, object_operation, assert_is_initialized, ACQUIRE_LOCK,
      RELEASE_LOCK, World.log, hinit, h, List.take_append_eq_append_take]

/-- C7, what the code does at a null value handle: `P3D_object_incref` and
`P3D_object_decref` test the handle and return without touching anything, but
the eleven operations from `P3D_object_get_type` to `P3D_object_eval` take the
lock and hand the null handle to their `P3D_OBJECT_*` macro; the call then
ends as the dispatch through the null handle ends, a fault when the macro
cannot go through it. -/
theorem C7_null_object_is_dispatched (ext : Externals R L) (w : World R L)
    (hinit : ext.is_initialized w.rt = true) :
    GoesThrough w (P3D_object_get_type ext NULL w) .get_type NULL
      (ext.P3D_OBJECT_GET_TYPE w.rt NULL) ∧
    GoesThrough w (P3D_object_get_bool ext NULL w) .get_bool NULL
      (ext.P3D_OBJECT_GET_BOOL w.rt NULL) ∧
    GoesThrough w (P3D_object_get_int ext NULL w) .get_int NULL
      (ext.P3D_OBJECT_GET_INT w.rt NULL) ∧
    GoesThrough w (P3D_object_get_float ext NULL w) .get_float NULL
      (ext.P3D_OBJECT_GET_FLOAT w.rt NULL) ∧
    (∀ buffer size, GoesThrough w (P3D_object_get_string ext NULL buffer size w) .get_string
      NULL (ext.P3D_OBJECT_GET_STRING w.rt NULL buffer size)) ∧
    (∀ buffer size, GoesThrough w (P3D_object_get_repr ext NULL buffer size w) .get_repr
      NULL (ext.P3D_OBJECT_GET_REPR w.rt NULL buffer size)) ∧
    (∀ property, GoesThrough w (P3D_object_get_property ext NULL property w) .get_property
      NULL (ext.P3D_OBJECT_GET_PROPERTY w.rt NULL property)) ∧
    (∀ property value,
      GoesThrough w (P3D_object_set_property ext NULL property value w) .set_property
      NULL (ext.P3D_OBJECT_SET_PROPERTY w.rt NULL property value)) ∧
    (∀ name, GoesThrough w (P3D_object_has_method ext NULL name w) .has_method
      NULL (ext.P3D_OBJECT_HAS_METHOD w.rt NULL name)) ∧
    (∀ name needs_response params num_params,
      GoesThrough w (P3D_object_call ext NULL name needs_response params num_params w) .call
      NULL (ext.P3D_OBJECT_CALL w.rt NULL name needs_response params num_params)) ∧
    (∀ expression, GoesThrough w (P3D_object_eval ext NULL expression w) .eval
      NULL (ext.P3D_OBJECT_EVAL w.rt NULL expression)) ∧
    ReturnsUntouched w (P3D_object_incref ext NULL w) () [.assert_is_initialized true] ∧
    ReturnsUntouched w (P3D_object_decref ext NULL w) () [.assert_is_initialized true] := by
  refine ⟨?_, ?_, ?_, ?_, ?_, ?_, ?_, ?_, ?_, ?_, ?_, ?_, ?_⟩
  · exact object_operation_goes_through ext _ _ _ w hinit
  · exact object_operation_goes_through ext _ _ _ w hinit
  · exact object_operation_goes_through ext _ _ _ w hinit
  · exact object_operation_goes_through ext _ _ _ w hinit
  · intro b n; exact object_operation_goes_through ext _ _ _ w hinit
  · intro b n; exact object_operation_goes_through ext _ _ _ w hinit
  · intro q; exact object_operation_goes_through ext _ _ _ w hinit
  · intro q v; exact object_operation_goes_through ext _ _ _ w hinit
  · intro q; exact object_operation_goes_through ext _ _ _ w hinit
  · intro q r ps n; exact object_operation_goes_through ext _ _ _ w hinit
  · intro q; exact object_operation_goes_through ext _ _ _ w hinit
  · simp [ReturnsUntouched, steps, P3D_object_incref, assert_is_initialized, World.log, hinit]
  · simp [ReturnsUntouched, steps, P3D_object_decref, assert_is_initialized, World.log, hinit]

/-- C7, run: on the toy runtime, whose macros cannot go through the null
handle, `P3D_object_get_type(NULL)` takes the lock, dispatches, and faults with
the lock still held. -/
theorem C7_witness :
    (P3D_object_get_type toyExt NULL (toyWorld ⟨true, [100], [], [], []⟩)).1 = .fault :=
  (C7_null_object_is_dispatched toyExt (toyWorld ⟨true, [100], [], [], []⟩)
    (by decide)).1.2.1 (by decide)

/-! ### The wait loop of `P3D_check_request` -/

/-- Going round the loop from a world in which the lock is held and the last
scan answered `inst` leaves a trace of the `ScanTrace` shape (counted from
that scan), and a return happens with the lock released. -/
theorem check_request_loop_shape (ext : Externals R L) (fuel : Nat) :
    ∀ (w : World R L) (inst : Ptr), w._api_lock.held = true →
      ∃ t, (check_request_loop ext fuel w inst).2.trace = w.trace ++ t ∧
        ScanTrace (⟨.mgr_check_request inst, true⟩ :: t) (check_request_loop ext fuel w inst).1 ∧
        (check_request_loop ext fuel w inst).2._api_lock.inits = w._api_lock.inits ∧
        (check_request_loop ext fuel w inst).2.initialized_lock = w.initialized_lock ∧
        (∀ v, (check_request_loop ext fuel w inst).1 = .returned v →
          (check_request_loop ext fuel w inst).2._api_lock.held = false) := by
  induction fuel with
  | zero =>
    intro w inst hheld
    by_cases hi : inst = NULL
    · by_cases hn : ext.get_num_instances w.rt = 0
      · refine ⟨[⟨.mgr_get_num_instances 0, true⟩, ⟨.release_lock, true⟩], ?_, ?_, ?_⟩
        · simp [check_request_loop, check_request_condition, RELEASE_LOCK, World.log, hi, hn,
            hheld]
        · simp [check_request_loop, check_request_condition, hi, hn]
          exact ScanTrace.nothing_left
        · simp [check_request_loop, check_request_condition, RELEASE_LOCK, World.log, hi, hn]
      · refine ⟨[⟨.mgr_get_num_instances (ext.get_num_instances w.rt), true⟩], ?_, ?_, ?_⟩
        · simp [check_request_loop, check_request_condition, World.log, hi, hn, hheld]
        · simp [check_request_loop, check_request_condition, hi, hn]
          exact ScanTrace.out_of_fuel _ hn
        · simp [check_request_loop, check_request_condition, World.log, hi, hn]
    · refine ⟨[⟨.release_lock, true⟩], ?_, ?_, ?_⟩
      · simp [check_request_loop, check_request_condition, RELEASE_LOCK, World.log, hi, hheld]
      · simp [check_request_loop, check_request_condition, hi]
        exact ScanTrace.found _ hi
      · simp [check_request_loop, check_request_condition, RELEASE_LOCK, World.log, hi]
  | succ fuel ih =>
    intro w inst hheld
    by_cases hi : inst = NULL
    · by_cases hn : ext.get_num_instances w.rt = 0
      · refine ⟨[⟨.mgr_get_num_instances 0, true⟩, ⟨.release_lock, true⟩], ?_, ?_, ?_⟩
        · simp [check_request_loop, check_request_condition, RELEASE_LOCK, World.log, hi, hn,
            hheld]
        · simp [check_request_loop, check_request_condition, hi, hn]
          exact ScanTrace.nothing_left
        · simp [check_request_loop, check_request_condition, RELEASE_LOCK, World.log, hi, hn]
      · have hstep : check_request_loop ext (fuel + 1) w inst
            = check_request_loop ext fuel
                (check_request_body ext (w.log (.mgr_get_num_instances
                  (ext.get_num_instances w.rt)))).2
                (check_request_body ext (w.log (.mgr_get_num_instances
                  (ext.get_num_instances w.rt)))).1 := by
          simp [check_request_loop, check_request_condition, hi, hn]
        obtain ⟨t, ht, hshape, hinits, hflag, hrel⟩ :=
          ih (check_request_body ext (w.log (.mgr_get_num_instances
                (ext.get_num_instances w.rt)))).2
              (check_request_body ext (w.log (.mgr_get_num_instances
                (ext.get_num_instances w.rt)))).1
              (by simp [check_request_body, ACQUIRE_LOCK, RELEASE_LOCK, World.log])
        rw [hstep]
        refine ⟨⟨.mgr_get_num_instances (ext.get_num_instances w.rt), true⟩ ::
          ⟨.release_lock, true⟩ :: ⟨.mgr_wait_request, false⟩ :: ⟨.acquire_lock, false⟩ ::
          ⟨.mgr_check_request (check_request_body ext (w.log (.mgr_get_num_instances
                (ext.get_num_instances w.rt)))).1, true⟩ :: t, ?_, ?_, ?_, ?_, hrel⟩
        · rw [ht]
          simp [check_request_body, ACQUIRE_LOCK, RELEASE_LOCK, World.log, hheld]
        · subst hi
          exact ScanTrace.again _ hn _ _ hshape
        · rw [hinits]
          simp [check_request_body, ACQUIRE_LOCK, RELEASE_LOCK, World.log]
        · rw [hflag]
          simp [check_request_body, ACQUIRE_LOCK, RELEASE_LOCK, World.log]
    · refine ⟨[⟨.release_lock, true⟩], ?_, ?_, ?_⟩
      · simp [check_request_loop, check_request_condition, RELEASE_LOCK, World.log, hi, hheld]
      · simp [check_request_loop, check_request_condition, hi]
        exact ScanTrace.found _ hi
      · simp [check_request_loop, check_request_condition, RELEASE_LOCK, World.log, hi]

/-- The whole of `P3D_check_request`: either the assertion fails and nothing
else happens, or the steps are the assertion, `ACQUIRE_LOCK` and then, without
waiting, one scan and `RELEASE_LOCK`, or, with waiting, a trace of the
`ScanTrace` shape. -/
theorem check_request_shape (ext : Externals R L) (fuel : Nat) (wait : Bool) (w : World R L) :
    (ext.is_initialized w.rt = false ∧
      P3D_check_request ext fuel wait w = (.assert_failed, assert_is_initialized ext w)) ∨
    (ext.is_initialized w.rt = true ∧
      ∃ t, (P3D_check_request ext fuel wait w).2.trace
          = w.trace ++ ⟨.assert_is_initialized true, w._api_lock.held⟩ ::
              ⟨.acquire_lock, w._api_lock.held⟩ :: t ∧
        (wait = false → t = [⟨.mgr_check_request (ext.check_request w.rt), true⟩,
            ⟨.release_lock, true⟩] ∧
          (P3D_check_request ext fuel wait w).1 = .returned (ext.check_request w.rt)) ∧
        (wait = true → ScanTrace t (P3D_check_request ext fuel wait w).1) ∧
        (P3D_check_request ext fuel wait w).2._api_lock.inits = w._api_lock.inits ∧
        (P3D_check_request ext fuel wait w).2.initialized_lock = w.initialized_lock ∧
        (∀ v, (P3D_check_request ext fuel wait w).1 = .returned v →
          (P3D_check_request ext fuel wait w).2._api_lock.held = false)) := by
  by_cases hinit : ext.is_initialized w.rt = true
  swap
  · left
    simp only [Bool.not_eq_true] at hinit
    simp [P3D_check_request, assert_is_initialized, World.log, hinit]
  right
  refine ⟨hinit, ?_⟩
  by_cases hquick : ext.check_request w.rt ≠ NULL ∨ wait = false
  · refine ⟨[⟨.mgr_check_request (ext.check_request w.rt), true⟩, ⟨.release_lock, true⟩],
      ?_, ?_, ?_, ?_⟩
    · simp [P3D_check_request, assert_is_initialized, ACQUIRE_LOCK, RELEASE_LOCK, World.log,
        hinit, hquick]
    · intro _
      simp [P3D_check_request, assert_is_initialized, ACQUIRE_LOCK, RELEASE_LOCK, World.log,
        hinit, hquick]
    · intro hw
      have hfound : ext.check_request w.rt ≠ NULL := by
        rcases hquick with h | h
        · exact h
        · rw [hw] at h; exact absurd h (by decide)
      simp only [P3D_check_request, assert_is_initialized, ACQUIRE_LOCK, RELEASE_LOCK,
        World.log, hinit, hquick]
      simp only [Bool.true_eq_false, if_false, if_true]
      exact ScanTrace.found _ hfound
    · simp [P3D_check_request, assert_is_initialized, ACQUIRE_LOCK, RELEASE_LOCK, World.log,
        hinit, hquick]
  · have hscan : ext.check_request w.rt = NULL := by
      by_contra h; exact hquick (Or.inl h)
    have hwait : wait = true := by
      cases wait
      · exact absurd (Or.inr rfl) hquick
      · rfl
    have hstep : P3D_check_request ext fuel wait w
        = check_request_loop ext fuel
            ((ACQUIRE_LOCK (assert_is_initialized ext w)).log
              (.mgr_check_request (ext.check_request w.rt)))
            (ext.check_request w.rt) := by
      simp [P3D_check_request, assert_is_initialized, ACQUIRE_LOCK, World.log, hinit, hscan, hwait]
    obtain ⟨t, ht, hshape, hinits, hflag, hrel⟩ := check_request_loop_shape ext fuel
      ((ACQUIRE_LOCK (assert_is_initialized ext w)).log
        (.mgr_check_request (ext.check_request w.rt)))
      (ext.check_request w.rt) (by simp [ACQUIRE_LOCK, World.log])
    rw [hstep]
    refine ⟨⟨.mgr_check_request (ext.check_request w.rt), true⟩ :: t, ?_, ?_, ?_, ?_, ?_, hrel⟩
    · rw [ht]
      simp [assert_is_initialized, ACQUIRE_LOCK, World.log, hinit]
    · intro hw; rw [hwait] at hw; exact absurd hw (by decide)
    · intro _; exact hshape
    · rw [hinits]; simp [assert_is_initialized, ACQUIRE_LOCK, World.log]
    · rw [hflag]; simp [assert_is_initialized, ACQUIRE_LOCK, World.log]

/-! ### What every trace of the `ScanTrace` shape satisfies -/

/-- Cutting a non-empty list in front of one of its entries: the entry is the
head, or the head belongs to the part in front. -/
theorem cons_eq_append_cons {α : Type} {a e : α} {l pre post : List α}
    (h : a :: l = pre ++ e :: post) :
    (pre = [] ∧ a = e ∧ l = post) ∨ ∃ pre', pre = a :: pre' ∧ l = pre' ++ e :: post := by
  cases pre with
  | nil =>
    left
    simp only [List.nil_append, List.cons.injEq] at h
    exact ⟨rfl, h.1, h.2⟩
  | cons b pre' =>
    right
    simp only [List.cons_append, List.cons.injEq] at h
    exact ⟨pre', by rw [h.1], h.2⟩

/-- A trace of the shape starts with a scan; after a scan that found an
instance only the release follows, after a scan that found nothing the count
is taken next. -/
theorem ScanTrace.head_shape {t : List Entry} {out : Outcome Ptr} (h : ScanTrace t out) :
    ∃ p rest, t = ⟨.mgr_check_request p, true⟩ :: rest ∧
      (p ≠ NULL → rest = [⟨.release_lock, true⟩]) ∧
      (p = NULL → ∃ n rest', rest = ⟨.mgr_get_num_instances n, true⟩ :: rest') := by
  cases h with
  | found p hp => exact ⟨p, _, rfl, fun _ => rfl, fun h0 => absurd h0 hp⟩
  | nothing_left => exact ⟨NULL, _, rfl, fun h0 => absurd rfl h0, fun _ => ⟨_, _, rfl⟩⟩
  | out_of_fuel n hn => exact ⟨NULL, _, rfl, fun h0 => absurd rfl h0, fun _ => ⟨_, _, rfl⟩⟩
  | again n hn rest out more =>
    exact ⟨NULL, _, rfl, fun h0 => absurd rfl h0, fun _ => ⟨_, _, rfl⟩⟩

/-- Around every `wait_request` of a trace of the shape: the lock is not held;
right before it come a scan that found nothing, a count that was not zero and
the release; right after it come the acquire and a fresh scan, followed by
the release alone if it found an instance and by a new count if it did not. -/
theorem ScanTrace.around_wait {t : List Entry} {out : Outcome Ptr} (h : ScanTrace t out) :
    ∀ pre e post, t = pre ++ e :: post → e.ev = .mgr_wait_request →
      e.locked = false ∧
      (∃ pre' n, n ≠ 0 ∧ pre = pre' ++ [⟨.mgr_check_request NULL, true⟩,
        ⟨.mgr_get_num_instances n, true⟩, ⟨.release_lock, true⟩]) ∧
      (∃ p post', post = ⟨.acquire_lock, false⟩ :: ⟨.mgr_check_request p, true⟩ :: post' ∧
        (p ≠ NULL → post' = [⟨.release_lock, true⟩]) ∧
        (p = NULL → ∃ n rest, post' = ⟨.mgr_get_num_instances n, true⟩ :: rest)) := by
  induction h with
  | found p hp =>
    intro pre e post heq hev
    have hmem : e ∈ [(⟨.mgr_check_request p, true⟩ : Entry), ⟨.release_lock, true⟩] := by
      rw [heq]; simp
    simp only [List.mem_cons, List.mem_singleton, List.not_mem_nil, or_false] at hmem
    rcases hmem with rfl | rfl <;> simp at hev
  | nothing_left =>
    intro pre e post heq hev
    have hmem : e ∈ [(⟨.mgr_check_request NULL, true⟩ : Entry),
        ⟨.mgr_get_num_instances 0, true⟩, ⟨.release_lock, true⟩] := by
      rw [heq]; simp
    simp only [List.mem_cons, List.mem_singleton, List.not_mem_nil, or_false] at hmem
    rcases hmem with rfl | rfl | rfl <;> simp at hev
  | out_of_fuel n hn =>
    intro pre e post heq hev
    have hmem : e ∈ [(⟨.mgr_check_request NULL, true⟩ : Entry),
        ⟨.mgr_get_num_instances n, true⟩] := by
      rw [heq]; simp
    simp only [List.mem_cons, List.mem_singleton, List.not_mem_nil, or_false] at hmem
    rcases hmem with rfl | rfl <;> simp at hev
  | again n hn rest out more ih =>
    intro pre e post heq hev
    rcases cons_eq_append_cons heq with ⟨_, rfl, _⟩ | ⟨p1, rfl, h1⟩
    · simp at hev
    rcases cons_eq_append_cons h1 with ⟨_, rfl, _⟩ | ⟨p2, rfl, h2⟩
    · simp at hev
    rcases cons_eq_append_cons h2 with ⟨_, rfl, _⟩ | ⟨p3, rfl, h3⟩
    · simp at hev
    rcases cons_eq_append_cons h3 with ⟨rfl, rfl, rfl⟩ | ⟨p4, rfl, h4⟩
    · obtain ⟨p, rest', hrest, hfound, hnone⟩ := more.head_shape
      refine ⟨rfl, ⟨[], n, hn, rfl⟩, ⟨p, rest', ?_, hfound, hnone⟩⟩
      rw [hrest]
    rcases cons_eq_append_cons h4 with ⟨_, rfl, _⟩ | ⟨p5, rfl, h5⟩
    · simp at hev
    obtain ⟨hlock, ⟨pre', m, hm, hpre⟩, hpost⟩ := ih p5 e post h5 hev
    refine ⟨hlock, ⟨⟨.mgr_check_request NULL, true⟩ :: ⟨.mgr_get_num_instances n, true⟩ ::
      ⟨.release_lock, true⟩ :: ⟨.mgr_wait_request, false⟩ :: ⟨.acquire_lock, false⟩ :: pre',
      m, hm, ?_⟩, hpost⟩
    rw [hpre]; rfl

/-- In a trace of the shape every scan and every count is made with the lock
held. -/
theorem ScanTrace.queries_locked {t : List Entry} {out : Outcome Ptr} (h : ScanTrace t out) :
    ∀ e ∈ t, ((∃ p, e.ev = .mgr_check_request p) ∨ (∃ n, e.ev = .mgr_get_num_instances n)) →
      e.locked = true := by
  induction h with
  | found p hp =>
    intro e he _
    simp only [List.mem_cons, List.mem_singleton, List.not_mem_nil, or_false] at he
    rcases he with rfl | rfl <;> rfl
  | nothing_left =>
    intro e he _
    simp only [List.mem_cons, List.mem_singleton, List.not_mem_nil, or_false] at he
    rcases he with rfl | rfl | rfl <;> rfl
  | out_of_fuel n hn =>
    intro e he _
    simp only [List.mem_cons, List.mem_singleton, List.not_mem_nil, or_false] at he
    rcases he with rfl | rfl <;> rfl
  | again n hn rest out more ih =>
    intro e he hq
    simp only [List.mem_cons] at he
    rcases he with rfl | rfl | rfl | rfl | rfl | he
    · rfl
    · rfl
    · rfl
    · rcases hq with ⟨p, hp⟩ | ⟨m, hm⟩
      · simp at hp
      · simp at hm
    · rcases hq with ⟨p, hp⟩ | ⟨m, hm⟩
      · simp at hp
      · simp at hm
    · exact ih e he hq

/-- In a trace of the shape that ends in a return, the value returned is the
answer of the last scan. -/
theorem ScanTrace.returns_last_scan {t : List Entry} {out : Outcome Ptr} (h : ScanTrace t out) :
    ∀ v, out = .returned v →
      ∃ pre post, t = pre ++ ⟨.mgr_check_request v, true⟩ :: post ∧
        ∀ e ∈ post, ∀ p, e.ev ≠ .mgr_check_request p := by
  induction h with
  | found p hp =>
    intro v hv
    simp only [Outcome.returned.injEq] at hv
    subst hv
    exact ⟨[], [⟨.release_lock, true⟩], rfl, by simp⟩
  | nothing_left =>
    intro v hv
    simp only [Outcome.returned.injEq] at hv
    subst hv
    exact ⟨[], [⟨.mgr_get_num_instances 0, true⟩, ⟨.release_lock, true⟩], rfl, by simp⟩
  | out_of_fuel n hn =>
    intro v hv
    simp at hv
  | again n hn rest out more ih =>
    intro v hv
    obtain ⟨pre, post, hrest, hpost⟩ := ih v hv
    refine ⟨⟨.mgr_check_request NULL, true⟩ :: ⟨.mgr_get_num_instances n, true⟩ ::
      ⟨.release_lock, true⟩ :: ⟨.mgr_wait_request, false⟩ :: ⟨.acquire_lock, false⟩ :: pre,
      post, ?_, hpost⟩
    rw [hrest]; rfl

/-- A trace of the shape that ends in the return of null ends with a scan
that found nothing, a count of zero and the release. -/
theorem ScanTrace.null_only_when_empty {t : List Entry} {out : Outcome Ptr}
    (h : ScanTrace t out) :
    out = .returned NULL →
      ∃ pre, t = pre ++ [⟨.mgr_check_request NULL, true⟩, ⟨.mgr_get_num_instances 0, true⟩,
        ⟨.release_lock, true⟩] := by
  induction h with
  | found p hp =>
    intro hv
    simp only [Outcome.returned.injEq] at hv
    exact absurd hv hp
  | nothing_left =>
    intro _
    exact ⟨[], rfl⟩
  | out_of_fuel n hn =>
    intro hv
    simp at hv
  | again n hn rest out more ih =>
    intro hv
    obtain ⟨pre, hrest⟩ := ih hv
    refine ⟨⟨.mgr_check_request NULL, true⟩ :: ⟨.mgr_get_num_instances n, true⟩ ::
      ⟨.release_lock, true⟩ :: ⟨.mgr_wait_request, false⟩ :: ⟨.acquire_lock, false⟩ :: pre, ?_⟩
    rw [hrest]; rfl

/-- C4: in every run of `P3D_check_request(true)`, whatever the runtime, the
world and the number of times the loop goes round, the steps `new` that the
call adds to the trace are such that (1) at every `wait_request` the lock is
not held, the step right before it is a `RELEASE_LOCK` (made with the lock
held) and the step right after it is an `ACQUIRE_LOCK` (made with the lock
not held); (2) every `check_request` scan and every `get_num_instances` count
is made with the lock held. -/
theorem C4_lock_released_around_wait (ext : Externals R L) (fuel : Nat) (w : World R L) :
    ∃ new, (P3D_check_request ext fuel true w).2.trace = w.trace ++ new ∧
      (∀ pre e post, new = pre ++ e :: post → e.ev = .mgr_wait_request →
        e.locked = false ∧
        (∃ pre', pre = pre' ++ [⟨.release_lock, true⟩]) ∧
        (∃ post', post = ⟨.acquire_lock, false⟩ :: post')) ∧
      (∀ e ∈ new,
        ((∃ p, e.ev = .mgr_check_request p) ∨ (∃ n, e.ev = .mgr_get_num_instances n)) →
          e.locked = true) := by
  rcases check_request_shape ext fuel true w with ⟨hinit, hres⟩ | ⟨hinit, t, ht, -, hshape, -⟩
  · refine ⟨[⟨.assert_is_initialized false, w._api_lock.held⟩], ?_, ?_, ?_⟩
    · rw [hres]; simp [assert_is_initialized, World.log, hinit]
    · intro pre e post heq hev
      rcases cons_eq_append_cons heq with ⟨_, rfl, _⟩ | ⟨p1, _, h1⟩
      · simp at hev
      · simp at h1
    · intro e he hq
      simp only [List.mem_singleton] at he
      subst he
      rcases hq with ⟨p, hp⟩ | ⟨m, hm⟩
      · simp at hp
      · simp at hm
  · have hshape := hshape rfl
    refine ⟨_, ht, ?_, ?_⟩
    · intro pre e post heq hev
      rcases cons_eq_append_cons heq with ⟨_, rfl, _⟩ | ⟨p1, rfl, h1⟩
      · simp at hev
      rcases cons_eq_append_cons h1 with ⟨_, rfl, _⟩ | ⟨p2, rfl, h2⟩
      · simp at hev
      obtain ⟨hlock, ⟨pre', n, _, hpre⟩, ⟨p, post', hpost, _⟩⟩ :=
        hshape.around_wait p2 e post h2 hev
      refine ⟨hlock, ⟨⟨.assert_is_initialized true, w._api_lock.held⟩ ::
        ⟨.acquire_lock, w._api_lock.held⟩ :: (pre' ++ [⟨.mgr_check_request NULL, true⟩,
          ⟨.mgr_get_num_instances n, true⟩]), ?_⟩, ⟨_, hpost⟩⟩
      rw [hpre]; simp
    · intro e he hq
      simp only [List.mem_cons] at he
      rcases he with rfl | rfl | he
      · rcases hq with ⟨p, hp⟩ | ⟨m, hm⟩
        · simp at hp
        · simp at hm
      · rcases hq with ⟨p, hp⟩ | ⟨m, hm⟩
        · simp at hp
        · simp at hm
      · exact hshape.queries_locked e he hq

/-- C10: whenever `P3D_check_request(wait)` returns `v`, the steps `new` it
added to the trace are such that (1) `v` is the answer of the last scan among
them; (2) without waiting they are the assertion, `ACQUIRE_LOCK`, one scan and
`RELEASE_LOCK`, so one scan and no `wait_request`; (3) with waiting, right
before every `wait_request` come a scan that found nothing, a count that was
not zero and the release, and right after it come the acquire and a fresh
scan, followed by the release alone if it found an instance and by a new
count, before anything else, if it did not; (4) with waiting, if `v` is null
the steps end with a scan that found nothing, a count of zero and the
release. -/
theorem C10_check_request_result (ext : Externals R L) (fuel : Nat) (wait : Bool)
    (w : World R L) (v : Ptr)
    (hret : (P3D_check_request ext fuel wait w).1 = .returned v) :
    ∃ new, (P3D_check_request ext fuel wait w).2.trace = w.trace ++ new ∧
      (∃ pre post, new = pre ++ ⟨.mgr_check_request v, true⟩ :: post ∧
        ∀ e ∈ post, ∀ p, e.ev ≠ .mgr_check_request p) ∧
      (wait = false →
        steps new = [.assert_is_initialized true, .acquire_lock, .mgr_check_request v,
          .release_lock]) ∧
      (wait = true →
        (∀ pre e post, new = pre ++ e :: post → e.ev = .mgr_wait_request →
          (∃ pre' n, n ≠ 0 ∧ pre = pre' ++ [⟨.mgr_check_request NULL, true⟩,
            ⟨.mgr_get_num_instances n, true⟩, ⟨.release_lock, true⟩]) ∧
          (∃ p post', post = ⟨.acquire_lock, false⟩ :: ⟨.mgr_check_request p, true⟩ :: post' ∧
            (p ≠ NULL → post' = [⟨.release_lock, true⟩]) ∧
            (p = NULL → ∃ n rest, post' = ⟨.mgr_get_num_instances n, true⟩ :: rest))) ∧
        (v = NULL →
          ∃ pre, new = pre ++ [⟨.mgr_check_request NULL, true⟩,
            ⟨.mgr_get_num_instances 0, true⟩, ⟨.release_lock, true⟩])) := by
  rcases check_request_shape ext fuel wait w with ⟨_, hres⟩ | ⟨_, t, ht, hquick, hshape, -⟩
  · rw [hres] at hret
    simp at hret
  refine ⟨_, ht, ?_, ?_, ?_⟩
  · cases wait with
    | false =>
      obtain ⟨htq, hout⟩ := hquick rfl
      rw [hout] at hret
      simp only [Outcome.returned.injEq] at hret
      refine ⟨[⟨.assert_is_initialized true, w._api_lock.held⟩,
        ⟨.acquire_lock, w._api_lock.held⟩], [⟨.release_lock, true⟩], ?_, by simp⟩
      rw [htq, hret]; rfl
    | true =>
      obtain ⟨pre, post, hsplit, hpost⟩ := (hshape rfl).returns_last_scan v hret
      refine ⟨⟨.assert_is_initialized true, w._api_lock.held⟩ ::
        ⟨.acquire_lock, w._api_lock.held⟩ :: pre, post, ?_, hpost⟩
      rw [hsplit]; rfl
  · intro hw
    obtain ⟨htq, hout⟩ := hquick hw
    rw [hout] at hret
    simp only [Outcome.returned.injEq] at hret
    rw [htq, hret]
    simp [steps]
  · intro hw
    have hshape := hshape hw
    refine ⟨?_, ?_⟩
    · intro pre e post heq hev
      rcases cons_eq_append_cons heq with ⟨_, rfl, _⟩ | ⟨p1, rfl, h1⟩
      · simp at hev
      rcases cons_eq_append_cons h1 with ⟨_, rfl, _⟩ | ⟨p2, rfl, h2⟩
      · simp at hev
      obtain ⟨_, ⟨pre', n, hn, hpre⟩, hpost⟩ := hshape.around_wait p2 e post h2 hev
      refine ⟨⟨⟨.assert_is_initialized true, w._api_lock.held⟩ ::
        ⟨.acquire_lock, w._api_lock.held⟩ :: pre', n, hn, ?_⟩, hpost⟩
      rw [hpre]; rfl
    · intro hv
      rw [hv] at hret
      obtain ⟨pre, hpre⟩ := hshape.null_only_when_empty hret
      refine ⟨⟨.assert_is_initialized true, w._api_lock.held⟩ ::
        ⟨.acquire_lock, w._api_lock.held⟩ :: pre, ?_⟩
      rw [hpre]; rfl

/-! ### Lock discipline of the whole API -/

/-- Repackaging the result does not change the world. -/
theorem ret_snd {α : Type} (f : α → RetVal) (p : Outcome α × World R L) :
    (ret f p).2 = p.2 := by
  unfold ret
  cases p.1 <;> rfl

/-- Repackaging the result keeps a return a return. -/
theorem ret_returned {α : Type} (f : α → RetVal) (p : Outcome α × World R L) (v : RetVal)
    (h : (ret f p).1 = .returned v) : ∃ a, p.1 = .returned a := by
  unfold ret at h
  cases hp : p.1 with
  | returned a => exact ⟨a, rfl⟩
  | assert_failed => rw [hp] at h; simp at h
  | fault => rw [hp] at h; simp at h
  | threw => rw [hp] at h; simp at h
  | waiting => rw [hp] at h; simp at h

/-- Repackaging the result keeps the discipline. -/
theorem ret_keeps_discipline {α : Type} (f : α → RetVal) (w : World R L)
    (p : Outcome α × World R L) (h : KeepsDiscipline w p) : KeepsDiscipline w (ret f p) := by
  obtain ⟨new, htrace, hlocked, hret⟩ := h
  refine ⟨new, ?_, hlocked, ?_⟩
  · rw [ret_snd]; exact htrace
  · intro v hv
    obtain ⟨a, ha⟩ := ret_returned f p v hv
    rw [ret_snd]
    exact hret a ha

/-- The shared body of the eleven value operations keeps the discipline. -/
theorem object_operation_keeps_discipline {α : Type} (ext : Externals R L) (op : ObjOp)
    (object : Ptr) (expansion : R → Option (R × α)) (w : World R L) :
    KeepsDiscipline w (object_operation ext op object expansion w) := by
  by_cases hinit : ext.is_initialized w.rt = true <;>
  cases h : expansion w.rt <;>
  simp [KeepsDiscipline, LockHeldExceptByDesign, Balanced, object_operation,
    assert_is_initialized, ACQUIRE_LOCK, RELEASE_LOCK, World.log, Ev.accessesRuntime,
    List.countP_cons, hinit, h]

/-- The shared body of the constructors keeps the discipline, the one call it
makes not being a lock operation. -/
theorem locked_construction_keeps_discipline (ext : Externals R L) (e : Ev)
    (make : R → R × Ptr) (w : World R L) (ha : e ≠ .acquire_lock)
    (hr : e ≠ .release_lock) :
    KeepsDiscipline w (locked_construction ext e make w) := by
  by_cases hinit : ext.is_initialized w.rt = true <;>
  simp [KeepsDiscipline, LockHeldExceptByDesign, Balanced, locked_construction,
    assert_is_initialized, ACQUIRE_LOCK, RELEASE_LOCK, World.log, Ev.accessesRuntime,
    List.countP_cons, hinit, ha, hr]

/-- In a trace of the shape, everything but the wait is done with the lock
held. -/
theorem ScanTrace.locked_by_design {t : List Entry} {out : Outcome Ptr} (h : ScanTrace t out) :
    LockHeldExceptByDesign t := by
  induction h with
  | found p hp => simp [LockHeldExceptByDesign]
  | nothing_left => simp [LockHeldExceptByDesign]
  | out_of_fuel n hn => simp [LockHeldExceptByDesign]
  | again n hn rest out more ih =>
    intro e he hacc hwait hassert
    simp only [List.mem_cons] at he
    rcases he with rfl | rfl | rfl | rfl | rfl | he
    · rfl
    · rfl
    · rfl
    · exact absurd rfl hwait
    · simp [Ev.accessesRuntime] at hacc
    · exact ih e he hacc hwait hassert

/-- A trace of the shape that ends in a return holds one `RELEASE_LOCK` more
than `ACQUIRE_LOCK`: the one that answers the acquire made before the first
scan. -/
theorem ScanTrace.one_more_release {t : List Entry} {out : Outcome Ptr} (h : ScanTrace t out) :
    ∀ v, out = .returned v →
      t.countP (fun e => e.ev = .acquire_lock) + 1 = t.countP (fun e => e.ev = .release_lock) := by
  induction h with
  | found p hp => intro v _; simp [List.countP_cons]
  | nothing_left => intro v _; simp [List.countP_cons]
  | out_of_fuel n hn => intro v hv; simp at hv
  | again n hn rest out more ih =>
    intro v hv
    have := ih v hv
    simp [List.countP_cons]
    omega

/-- `P3D_check_request` keeps the discipline. -/
theorem check_request_keeps_discipline (ext : Externals R L) (fuel : Nat) (wait : Bool)
    (w : World R L) : KeepsDiscipline w (P3D_check_request ext fuel wait w) := by
  rcases check_request_shape ext fuel wait w with
    ⟨hinit, hres⟩ | ⟨hinit, t, ht, hquick, hshape, -, -, hfree⟩
  · rw [hres]
    simp [KeepsDiscipline, LockHeldExceptByDesign, assert_is_initialized, World.log, hinit]
  · refine ⟨_, ht, ?_, ?_⟩
    · intro e he hacc hwait hassert
      simp only [List.mem_cons] at he
      rcases he with rfl | rfl | he
      · exact absurd rfl (hassert true)
      · simp [Ev.accessesRuntime] at hacc
      · cases wait with
        | false =>
          rw [(hquick rfl).1] at he
          simp only [List.mem_cons, List.mem_singleton, List.not_mem_nil, or_false] at he
          rcases he with rfl | rfl <;> rfl
        | true => exact (hshape rfl).locked_by_design e he hacc hwait hassert
    · intro v hv
      refine ⟨?_, fun _ => hfree v hv⟩
      cases wait with
      | false =>
        rw [(hquick rfl).1]
        simp [Balanced, List.countP_cons]
      | true =>
        have := (hshape rfl).one_more_release v hv
        simp [Balanced, List.countP_cons]
        omega

/-- `P3D_instance_start` keeps the discipline. -/
theorem P3D_instance_start_keeps_discipline (ext : Externals R L) (i : Ptr) (f : CStr) (w : World R L) :
    KeepsDiscipline w (P3D_instance_start ext i f w) := by
  by_cases hinit : ext.is_initialized w.rt = true <;>
  by_cases hv : ext.validate_instance w.rt i = NULL <;>
  simp [KeepsDiscipline, LockHeldExceptByDesign, Balanced, P3D_instance_start,
    assert_is_initialized, ACQUIRE_LOCK, RELEASE_LOCK, World.log, Ev.accessesRuntime,
    List.countP_cons, hinit, hv]
/-- `P3D_instance_finish` keeps the discipline. -/
theorem P3D_instance_finish_keeps_discipline (ext : Externals R L) (i : Ptr) (w : World R L) :
    KeepsDiscipline w (P3D_instance_finish ext i w) := by
  by_cases hinit : ext.is_initialized w.rt = true <;>
  by_cases hv : ext.validate_instance w.rt i = NULL <;>
  simp [KeepsDiscipline, LockHeldExceptByDesign, Balanced, P3D_instance_finish,
    assert_is_initialized, ACQUIRE_LOCK, RELEASE_LOCK, World.log, Ev.accessesRuntime,
    List.countP_cons, hinit, hv]
/-- `P3D_instance_setup_window` keeps the discipline. -/
theorem P3D_instance_setup_window_keeps_discipline (ext : Externals R L) (i : Ptr) (t x y wd ht : Int) (pw : Ptr) (w : World R L) :
    KeepsDiscipline w (P3D_instance_setup_window ext i t x y wd ht pw w) := by
  by_cases hinit : ext.is_initialized w.rt = true <;>
  by_cases hv : ext.validate_instance w.rt i = NULL <;>
  simp [KeepsDiscipline, LockHeldExceptByDesign, Balanced, P3D_instance_setup_window,
    assert_is_initialized, ACQUIRE_LOCK, RELEASE_LOCK, World.log, Ev.accessesRuntime,
    List.countP_cons, hinit, hv]
/-- `P3D_instance_get_panda_script_object` keeps the discipline. -/
theorem P3D_instance_get_panda_script_object_keeps_discipline (ext : Externals R L) (i : Ptr) (w : World R L) :
    KeepsDiscipline w (P3D_instance_get_panda_script_object ext i w) := by
  by_cases hinit : ext.is_initialized w.rt = true <;>
  by_cases hv : ext.validate_instance w.rt i = NULL <;>
  simp [KeepsDiscipline, LockHeldExceptByDesign, Balanced, P3D_instance_get_panda_script_object,
    assert_is_initialized, ACQUIRE_LOCK, RELEASE_LOCK, World.log, Ev.accessesRuntime,
    List.countP_cons, hinit, hv]
/-- `P3D_instance_set_browser_script_object` keeps the discipline. -/
theorem P3D_instance_set_browser_script_object_keeps_discipline (ext : Externals R L) (i o : Ptr) (w : World R L) :
    KeepsDiscipline w (P3D_instance_set_browser_script_object ext i o w) := by
  by_cases hinit : ext.is_initialized w.rt = true <;>
  by_cases hv : ext.validate_instance w.rt i = NULL <;>
  simp [KeepsDiscipline, LockHeldExceptByDesign, Balanced, P3D_instance_set_browser_script_object,
    assert_is_initialized, ACQUIRE_LOCK, RELEASE_LOCK, World.log, Ev.accessesRuntime,
    List.countP_cons, hinit, hv]
/-- `P3D_instance_get_request` keeps the discipline. -/
theorem P3D_instance_get_request_keeps_discipline (ext : Externals R L) (i : Ptr) (w : World R L) :
    KeepsDiscipline w (P3D_instance_get_request ext i w) := by
  by_cases hinit : ext.is_initialized w.rt = true <;>
  by_cases hv : ext.validate_instance w.rt i = NULL <;>
  simp [KeepsDiscipline, LockHeldExceptByDesign, Balanced, P3D_instance_get_request,
    assert_is_initialized, ACQUIRE_LOCK, RELEASE_LOCK, World.log, Ev.accessesRuntime,
    List.countP_cons, hinit, hv]
/-- `P3D_instance_feed_url_stream` keeps the discipline. -/
theorem P3D_instance_feed_url_stream_keeps_discipline (ext : Externals R L) (i : Ptr) (u : Int) (rc : Nat) (hs : Int) (te : Nat) (td : Ptr) (ts : Nat) (w : World R L) :
    KeepsDiscipline w (P3D_instance_feed_url_stream ext i u rc hs te td ts w) := by
  by_cases hinit : ext.is_initialized w.rt = true <;>
  by_cases hv : ext.validate_instance w.rt i = NULL <;>
  simp [KeepsDiscipline, LockHeldExceptByDesign, Balanced, P3D_instance_feed_url_stream,
    assert_is_initialized, ACQUIRE_LOCK, RELEASE_LOCK, World.log, Ev.accessesRuntime,
    List.countP_cons, hinit, hv]
/-- `P3D_instance_handle_event` keeps the discipline. -/
theorem P3D_instance_handle_event_keeps_discipline (ext : Externals R L) (i : Ptr) (e : Nat) (w : World R L) :
    KeepsDiscipline w (P3D_instance_handle_event ext i e w) := by
  by_cases hinit : ext.is_initialized w.rt = true <;>
  by_cases hv : ext.validate_instance w.rt i = NULL <;>
  simp [KeepsDiscipline, LockHeldExceptByDesign, Balanced, P3D_instance_handle_event,
    assert_is_initialized, ACQUIRE_LOCK, RELEASE_LOCK, World.log, Ev.accessesRuntime,
    List.countP_cons, hinit, hv]
/-- `P3D_new_instance` keeps the discipline. -/
theorem P3D_new_instance_keeps_discipline (ext : Externals R L) (f t : Ptr) (n : Nat) (u : Ptr) (w : World R L) :
    KeepsDiscipline w (P3D_new_instance ext f t n u w) := by
  by_cases hinit : ext.is_initialized w.rt = true <;>
  simp [KeepsDiscipline, LockHeldExceptByDesign, Balanced, P3D_new_instance,
    assert_is_initialized, ACQUIRE_LOCK, RELEASE_LOCK, World.log, Ev.accessesRuntime,
    List.countP_cons, hinit]
/-- `P3D_object_incref` keeps the discipline. -/
theorem P3D_object_incref_keeps_discipline (ext : Externals R L) (o : Ptr) (w : World R L) :
    KeepsDiscipline w (P3D_object_incref ext o w) := by
  by_cases hinit : ext.is_initialized w.rt = true <;>
  by_cases ho : o = NULL <;>
  cases hm : ext.P3D_OBJECT_INCREF w.rt o <;>
  simp [KeepsDiscipline, LockHeldExceptByDesign, Balanced, P3D_object_incref,
    assert_is_initialized, ACQUIRE_LOCK, RELEASE_LOCK, World.log, Ev.accessesRuntime,
    List.countP_cons, hinit, ho, hm]
/-- `P3D_object_decref` keeps the discipline. -/
theorem P3D_object_decref_keeps_discipline (ext : Externals R L) (o : Ptr) (w : World R L) :
    KeepsDiscipline w (P3D_object_decref ext o w) := by
  by_cases hinit : ext.is_initialized w.rt = true <;>
  by_cases ho : o = NULL <;>
  cases hm : ext.P3D_OBJECT_DECREF w.rt o <;>
  simp [KeepsDiscipline, LockHeldExceptByDesign, Balanced, P3D_object_decref,
    assert_is_initialized, ACQUIRE_LOCK, RELEASE_LOCK, World.log, Ev.accessesRuntime,
    List.countP_cons, hinit, ho, hm]
/-- `P3D_request_finish` keeps the discipline. -/
theorem P3D_request_finish_keeps_discipline (ext : Externals R L) (r : Ptr) (h : Bool) (w : World R L) :
    KeepsDiscipline w (P3D_request_finish ext r h w) := by
  by_cases hinit : ext.is_initialized w.rt = true <;>
  by_cases hr : r = NULL <;>
  by_cases hv : ext.validate_instance w.rt (ext.request_instance w.rt r) = NULL <;>
  simp [KeepsDiscipline, LockHeldExceptByDesign, Balanced, P3D_request_finish,
    assert_is_initialized, ACQUIRE_LOCK, RELEASE_LOCK, World.log, Ev.accessesRuntime,
    List.countP_cons, hinit, hr, hv]
/-- `P3D_new_string_object` keeps the discipline. -/
theorem P3D_new_string_object_keeps_discipline (ext : Externals R L) (x : Ptr) (n : Int)
    (w : World R L) : KeepsDiscipline w (P3D_new_string_object ext x n w) := by
  by_cases hinit : ext.is_initialized w.rt = true <;>
  cases hs : std_string ext w.rt x n <;>
  simp [KeepsDiscipline, LockHeldExceptByDesign, Balanced, P3D_new_string_object,
    assert_is_initialized, ACQUIRE_LOCK, RELEASE_LOCK, World.log, Ev.accessesRuntime,
    List.countP_cons, hinit, hs]

/-- `P3D_initialize` keeps the discipline. -/
theorem initialize_keeps_discipline (cfg : Config) (ext : Externals R L) (v : Int)
    (cf d pl : CStr) (w : World R L) :
    KeepsDiscipline w ( P3D_initialize cfg ext v cf d pl w) := by
  by_cases hv : v = cfg.P3D_API_VERSION <;>
  by_cases hl : w.initialized_lock = true <;>
  by_cases hg : ext.logfile_good (ext.logfile_open w.logfile (logfilename cfg ext)) = true <;>
  simp [KeepsDiscipline, LockHeldExceptByDesign, Balanced, P3D_initialize, INIT_LOCK,
    ACQUIRE_LOCK, RELEASE_LOCK, World.log, Ev.accessesRuntime, List.countP_cons, hv, hl, hg]

/-- Every entry point but `P3D_finalize` keeps the discipline. -/
theorem exec_keeps_discipline (cfg : Config) (ext : Externals R L) (fuel : Nat) (c : Call)
    (w : World R L) (hc : c ≠ .finalize) : KeepsDiscipline w (exec cfg ext fuel c w) := by
  cases c with
  | finalize => exact absurd rfl hc
  | init v cf d pl =>
    exact ret_keeps_discipline _ w _ (initialize_keeps_discipline cfg ext v cf d pl w)
  | check_request wait =>
    exact ret_keeps_discipline _ w _ (check_request_keeps_discipline ext fuel wait w)
  | new_instance f t n u =>
    exact ret_keeps_discipline _ w _ (P3D_new_instance_keeps_discipline ext f t n u w)
  | instance_start i f =>
    exact ret_keeps_discipline _ w _ (P3D_instance_start_keeps_discipline ext i f w)
  | instance_finish i =>
    exact ret_keeps_discipline _ w _ (P3D_instance_finish_keeps_discipline ext i w)
  | instance_setup_window i t x y wd ht pw =>
    exact ret_keeps_discipline _ w _ (P3D_instance_setup_window_keeps_discipline ext i t x y wd ht pw w)
  | instance_get_panda_script_object i =>
    exact ret_keeps_discipline _ w _ (P3D_instance_get_panda_script_object_keeps_discipline ext i w)
  | instance_set_browser_script_object i o =>
    exact ret_keeps_discipline _ w _ (P3D_instance_set_browser_script_object_keeps_discipline ext i o w)
  | instance_get_request i =>
    exact ret_keeps_discipline _ w _ (P3D_instance_get_request_keeps_discipline ext i w)
  | instance_feed_url_stream i u rc hs te td ts =>
    exact ret_keeps_discipline _ w _ (P3D_instance_feed_url_stream_keeps_discipline ext i u rc hs te td ts w)
  | instance_handle_event i e =>
    exact ret_keeps_discipline _ w _ (P3D_instance_handle_event_keeps_discipline ext i e w)
  | object_incref o =>
    exact ret_keeps_discipline _ w _ (P3D_object_incref_keeps_discipline ext o w)
  | object_decref o =>
    exact ret_keeps_discipline _ w _ (P3D_object_decref_keeps_discipline ext o w)
  | request_finish r h =>
    exact ret_keeps_discipline _ w _ (P3D_request_finish_keeps_discipline ext r h w)
  | object_get_type o =>
    exact ret_keeps_discipline _ w _ (object_operation_keeps_discipline ext _ _ _ w)
  | object_get_bool o =>
    exact ret_keeps_discipline _ w _ (object_operation_keeps_discipline ext _ _ _ w)
  | object_get_int o =>
    exact ret_keeps_discipline _ w _ (object_operation_keeps_discipline ext _ _ _ w)
  | object_get_float o =>
    exact ret_keeps_discipline _ w _ (object_operation_keeps_discipline ext _ _ _ w)
  | object_get_string o b n =>
    exact ret_keeps_discipline _ w _ (object_operation_keeps_discipline ext _ _ _ w)
  | object_get_repr o b n =>
    exact ret_keeps_discipline _ w _ (object_operation_keeps_discipline ext _ _ _ w)
  | object_get_property o q =>
    exact ret_keeps_discipline _ w _ (object_operation_keeps_discipline ext _ _ _ w)
  | object_set_property o q v =>
    exact ret_keeps_discipline _ w _ (object_operation_keeps_discipline ext _ _ _ w)
  | object_has_method o m =>
    exact ret_keeps_discipline _ w _ (object_operation_keeps_discipline ext _ _ _ w)
  | object_call o m r ps n =>
    exact ret_keeps_discipline _ w _ (object_operation_keeps_discipline ext _ _ _ w)
  | object_eval o x =>
    exact ret_keeps_discipline _ w _ (object_operation_keeps_discipline ext _ _ _ w)
  | make_class_definition  =>
    exact ret_keeps_discipline _ w _
      (locked_construction_keeps_discipline ext _ _ w (by simp) (by simp))
  | new_undefined_object  =>
    exact ret_keeps_discipline _ w _
      (locked_construction_keeps_discipline ext _ _ w (by simp) (by simp))
  | new_none_object  =>
    exact ret_keeps_discipline _ w _
      (locked_construction_keeps_discipline ext _ _ w (by simp) (by simp))
  | new_bool_object v =>
    exact ret_keeps_discipline _ w _
      (locked_construction_keeps_discipline ext _ _ w (by simp) (by simp))
  | new_int_object v =>
    exact ret_keeps_discipline _ w _
      (locked_construction_keeps_discipline ext _ _ w (by simp) (by simp))
  | new_float_object v =>
    exact ret_keeps_discipline _ w _
      (locked_construction_keeps_discipline ext _ _ w (by simp) (by simp))
  | new_string_object x n =>
    exact ret_keeps_discipline _ w _ (P3D_new_string_object_keeps_discipline ext x n w)

/-- C5, as stated, fails in three places. `P3D_finalize` deletes the registry
without ever taking the lock. `P3D_check_request(true)` calls the registry's
`wait_request` after it has released the lock. `P3D_new_instance`, like every
entry point with the assertion, reads `is_initialized()` from the registry
before it takes the lock. -/
theorem C5_counterexample :
    ¬ LockHeldAtEveryAccess (exec toyCfg toyExt 0 .finalize (toyWorld ⟨true, [100], [], [], []⟩)).2.trace ∧
    ¬ LockHeldAtEveryAccess (exec toyCfg toyExt 5 (.check_request true) toyBusy).2.trace ∧
    ¬ LockHeldAtEveryAccess
      (exec toyCfg toyExt 0 (.new_instance 0 0 0 0) (toyWorld ⟨true, [100], [], [], []⟩)).2.trace := by
  refine ⟨?_, ?_, ?_⟩
  · intro h
    exact absurd (h ⟨.mgr_delete_global_ptr, false⟩ (by decide) (by decide)) (by decide)
  · intro h
    exact absurd (h ⟨.mgr_wait_request, false⟩ (by decide) (by decide)) (by decide)
  · intro h
    exact absurd (h ⟨.assert_is_initialized true, false⟩ (by decide) (by decide)) (by decide)

/-- C5, amended: every entry point other than `P3D_finalize` holds the lock at
every step that reads or changes registry, instance, request or value state,
apart from the `is_initialized()` read of its entry assertion and from the
blocking `wait_request()` of `P3D_check_request`. -/
theorem C5_lock_held_except_by_design (cfg : Config) (ext : Externals R L) (fuel : Nat)
    (c : Call) (w : World R L) (hc : c ≠ .finalize) :
    ∃ new, (exec cfg ext fuel c w).2.trace = w.trace ++ new ∧
      ∀ e ∈ new, e.ev.accessesRuntime = true → e.ev ≠ .mgr_wait_request →
        (∀ b, e.ev ≠ .assert_is_initialized b) → e.locked = true := by
  obtain ⟨new, htrace, hlocked, -⟩ := exec_keeps_discipline cfg ext fuel c w hc
  exact ⟨new, htrace, hlocked⟩

/-- C5, run: `P3D_check_request(true)` on the busy toy world. -/
theorem C5_witness :
    ∃ new, (exec toyCfg toyExt 5 (.check_request true) toyBusy).2.trace = toyBusy.trace ++ new ∧
      ∀ e ∈ new, e.ev.accessesRuntime = true → e.ev ≠ .mgr_wait_request →
        (∀ b, e.ev ≠ .assert_is_initialized b) → e.locked = true :=
  C5_lock_held_except_by_design toyCfg toyExt 5 (.check_request true) toyBusy (by decide)

/-- Whenever an entry point hands a value back through one of its `return`
statements, whichever entry point it is and whatever path it took to that
statement, the steps it made hold as many `ACQUIRE_LOCK` as `RELEASE_LOCK`,
and a lock that the caller did not hold on entry is not held afterwards. Ways
out of an entry point other than a `return` statement are not covered. -/
theorem return_statement_releases_lock (cfg : Config) (ext : Externals R L) (fuel : Nat)
    (c : Call) (w : World R L) (v : RetVal)
    (hfree : w._api_lock.held = false)
    (hret : (exec cfg ext fuel c w).1 = .returned v) :
    (exec cfg ext fuel c w).2._api_lock.held = false ∧
    ∃ new, (exec cfg ext fuel c w).2.trace = w.trace ++ new ∧
      new.countP (fun e => e.ev = .acquire_lock) = new.countP (fun e => e.ev = .release_lock) := by
  by_cases hc : c = .finalize
  · subst hc
    refine ⟨?_, [⟨.mgr_delete_global_ptr, w._api_lock.held⟩], ?_, ?_⟩
    · simp [exec, ret, P3D_finalize, World.log, hfree]
    · simp [exec, ret, P3D_finalize, World.log]
    · simp [List.countP_cons]
  · obtain ⟨new, htrace, -, hbal⟩ := exec_keeps_discipline cfg ext fuel c w hc
    obtain ⟨hb, hheld⟩ := hbal v hret
    exact ⟨hheld hfree, new, htrace, hb⟩

/-- C6, where the code breaks it: `P3D_new_string_object(str, length)` with a
negative `length`, the manager being initialised and the lock free on entry.
The function takes the lock and then builds `string(str, length)` itself; the
constructor throws, nothing catches it, and the function is left with the lock
held: its steps are the assertion, `ACQUIRE_LOCK` and the string construction,
with no `RELEASE_LOCK` to answer the acquire. -/
theorem C6_new_string_object_leaves_lock_held (ext : Externals R L) (w : World R L)
    (str : Ptr) (length : Int)
    (hinit : ext.is_initialized w.rt = true)
    (hfree : w._api_lock.held = false)
    (hneg : length < 0) :
    (P3D_new_string_object ext str length w).1 = .threw ∧
    w._api_lock.held = false ∧
    (P3D_new_string_object ext str length w).2._api_lock.held = true ∧
    steps (P3D_new_string_object ext str length w).2.trace
      = steps w.trace ++ [.assert_is_initialized true, .acquire_lock, .std_string str length] := by
  refine ⟨?_, hfree, ?_, ?_⟩ <;>
    simp [steps, P3D_new_string_object, std_string, assert_is_initialized, ACQUIRE_LOCK,
      World.log, hinit, hneg]

/-- C6, run: `P3D_new_string_object(4242, -1)` on an initialised toy world
whose lock is free: the call is left by the exception, with the lock held. -/
theorem C6_witness :
    (P3D_new_string_object toyExt 4242 (-1) (toyWorld ⟨true, [100], [], [], []⟩)).1 = .threw ∧
    (toyWorld ⟨true, [100], [], [], []⟩)._api_lock.held = false ∧
    (P3D_new_string_object toyExt 4242 (-1)
      (toyWorld ⟨true, [100], [], [], []⟩)).2._api_lock.held = true ∧
    steps (P3D_new_string_object toyExt 4242 (-1) (toyWorld ⟨true, [100], [], [], []⟩)).2.trace
      = steps (toyWorld ⟨true, [100], [], [], []⟩).trace ++
          [.assert_is_initialized true, .acquire_lock, .std_string 4242 (-1)] :=
  C6_new_string_object_leaves_lock_held toyExt (toyWorld ⟨true, [100], [], [], []⟩) 4242 (-1)
    (by decide) (by decide) (by decide)

/-- C10, run: on the busy toy world the call returns instance 100, the answer
of its third and last scan. -/
theorem C10_witness :
    ∃ new, (P3D_check_request toyExt 5 true toyBusy).2.trace = toyBusy.trace ++ new ∧
      ∃ pre post, new = pre ++ ⟨.mgr_check_request 100, true⟩ :: post ∧
        ∀ e ∈ post, ∀ p, e.ev ≠ .mgr_check_request p :=
  (C10_check_request_result toyExt 5 true toyBusy 100 (by decide)).imp
    (fun _ h => ⟨h.1, h.2.1⟩)

/-! ### Repeated initialisation -/

/-- One call of `P3D_initialize`: the lock is initialised only if the version
matches and `initialized_lock` was not set, after which it is set; the log
file is opened and the registry's `initialize` is invoked once each whenever
the version matches. -/
theorem initialize_counts (cfg : Config) (ext : Externals R L) (a : InitArgs) (w : World R L) :
    ∃ new, ( P3D_initialize cfg ext a.api_version a.contents_filename a.download_url
          a.platform w).2.trace = w.trace ++ new ∧
      new.countP (fun e => e.ev.isLockInit)
        = (if a.api_version = cfg.P3D_API_VERSION ∧ w.initialized_lock = false then 1 else 0) ∧
      ( P3D_initialize cfg ext a.api_version a.contents_filename a.download_url
          a.platform w).2._api_lock.inits
        = w._api_lock.inits + new.countP (fun e => e.ev.isLockInit) ∧
      (w.initialized_lock = true ∨ 0 < new.countP (fun e => e.ev.isLockInit) →
        ( P3D_initialize cfg ext a.api_version a.contents_filename a.download_url
          a.platform w).2.initialized_lock = true) ∧
      new.countP (fun e => e.ev.isRegistrySetup)
        = (if a.api_version = cfg.P3D_API_VERSION then 1 else 0) ∧
      new.countP (fun e => e.ev.isLogfileOpen)
        = (if a.api_version = cfg.P3D_API_VERSION then 1 else 0) := by
  by_cases hv : a.api_version = cfg.P3D_API_VERSION <;>
  by_cases hl : w.initialized_lock = true <;>
  by_cases hg : ext.logfile_good (ext.logfile_open w.logfile (logfilename cfg ext)) = true <;>
  simp [INIT_LOCK, P3D_initialize, ACQUIRE_LOCK, RELEASE_LOCK, World.log, List.countP_cons,
    Ev.isLockInit, Ev.isRegistrySetup, Ev.isLogfileOpen, hv, hl, hg]

/-- A sequence of calls of `P3D_initialize` from any world: the lock is
initialised at most once, and not at all if `initialized_lock` was already
set; the log file is opened and the registry's `initialize` is invoked once
for each call with the matching version. -/
theorem run_initialize_calls_counts (cfg : Config) (ext : Externals R L)
    (calls : List InitArgs) :
    ∀ w : World R L, ∃ new, (run_initialize_calls cfg ext calls w).trace = w.trace ++ new ∧
      new.countP (fun e => e.ev.isLockInit) ≤ (if w.initialized_lock = true then 0 else 1) ∧
      (run_initialize_calls cfg ext calls w)._api_lock.inits
        = w._api_lock.inits + new.countP (fun e => e.ev.isLockInit) ∧
      new.countP (fun e => e.ev.isRegistrySetup)
        = calls.countP (fun a => a.api_version = cfg.P3D_API_VERSION) ∧
      new.countP (fun e => e.ev.isLogfileOpen)
        = calls.countP (fun a => a.api_version = cfg.P3D_API_VERSION) := by
  induction calls with
  | nil =>
    intro w
    refine ⟨[], ?_, ?_, ?_, ?_, ?_⟩ <;> simp [run_initialize_calls]
  | cons a rest ih =>
    intro w
    obtain ⟨n1, ht1, hi1, hn1, hf1, hs1, ho1⟩ := initialize_counts cfg ext a w
    obtain ⟨n2, ht2, hi2, hn2, hs2, ho2⟩ := ih
      ( P3D_initialize cfg ext a.api_version a.contents_filename a.download_url a.platform w).2
    refine ⟨n1 ++ n2, ?_, ?_, ?_, ?_, ?_⟩
    · simp only [run_initialize_calls]
      rw [ht2, ht1, List.append_assoc]
    · rw [List.countP_append]
      have hle1 : List.countP (fun e => e.ev.isLockInit) n1 ≤ 1 := by
        rw [hi1]; split <;> omega
      by_cases hl : w.initialized_lock = true
      · have h1 := hf1 (Or.inl hl)
        rw [if_pos h1] at hi2
        rw [if_neg (by rw [hl]; simp)] at hi1
        rw [if_pos hl]
        omega
      · rw [if_neg hl]
        by_cases hpos : 0 < List.countP (fun e => e.ev.isLockInit) n1
        · have h1 := hf1 (Or.inr hpos)
          rw [if_pos h1] at hi2
          omega
        · have hle2 : List.countP (fun e => e.ev.isLockInit) n2 ≤ 1 := by
            refine le_trans hi2 ?_; split <;> omega
          omega
    · simp only [run_initialize_calls]
      rw [hn2, hn1, List.countP_append]
      omega
    · rw [List.countP_append, hs1, hs2, List.countP_cons]
      simp only [decide_eq_true_eq]
      omega
    · rw [List.countP_append, ho1, ho2, List.countP_cons]
      simp only [decide_eq_true_eq]
      omega

/-- C9, as stated, fails: from the start world two calls of `P3D_initialize`
with the matching version both run the setup. The lock is initialised once,
by the first; but the second again calls `logfile.open` in truncating mode and
again invokes the registry's `initialize`. -/
theorem C9_counterexample :
    steps ( P3D_initialize toyCfg toyExt 7 none none none
        ( P3D_initialize toyCfg toyExt 7 none none none toyStart).2).2.trace
      = [.init_lock, .acquire_lock, .cerr "logfile: /tmp/panda3d.2.log\n",
          .logfile_open "/tmp/panda3d.2.log", .logfile_setf_unitbuf,
          .mgr_initialize_call "" "" "", .release_lock,
          .acquire_lock, .cerr "logfile: /tmp/panda3d.2.log\n",
          .logfile_open "/tmp/panda3d.2.log",
          .mgr_initialize_call "" "" "", .release_lock] := by
  decide

/-- C9, amended: across every sequence of calls of `P3D_initialize`, from any
world, the global lock is initialised at most once; the rest of the setup is
not guarded: each call with the matching version, the first as well as any
further one, calls `logfile.open` once and invokes the registry's `initialize`
once. -/
theorem C9_lock_init_once_setup_every_time (cfg : Config) (ext : Externals R L)
    (calls : List InitArgs) (w : World R L) :
    ∃ new, (run_initialize_calls cfg ext calls w).trace = w.trace ++ new ∧
      new.countP (fun e => e.ev.isLockInit) ≤ 1 ∧
      (run_initialize_calls cfg ext calls w)._api_lock.inits ≤ w._api_lock.inits + 1 ∧
      new.countP (fun e => e.ev.isRegistrySetup)
        = calls.countP (fun a => a.api_version = cfg.P3D_API_VERSION) ∧
      new.countP (fun e => e.ev.isLogfileOpen)
        = calls.countP (fun a => a.api_version = cfg.P3D_API_VERSION) := by
  obtain ⟨new, ht, hi, hn, hs, ho⟩ := run_initialize_calls_counts cfg ext calls w
  have hle : new.countP (fun e => e.ev.isLockInit) ≤ 1 := by
    refine le_trans hi ?_
    split <;> omega
  exact ⟨new, ht, hle, by omega, hs, ho⟩

end P3DPlugin
